import Mathlib

/-!
# Verification of the twilight in-memory cache (`cache/in-memory`)

A shallow embedding of the cache-update engine of `twilight-cache-inmemory`
(`src/lib.rs`, `src/event/mod.rs`, `src/redis.rs`, and the `model` files),
together with theorems settling the specification claims.

Modelling conventions:
* Discord snowflake ids (`UserId`, `GuildId`, `ChannelId`, `EmojiId`,
  `RoleId`, `MessageId`) are `Nat`.
* The sharded concurrent maps (`DashMap`) are association lists
  `List (κ × α)`; `HashSet`/`BTreeSet`/`DashSet` are duplicate-free `List`s
  maintained by insert-if-absent.  Events are applied sequentially, which is
  the observable behaviour of the per-entry atomic operations for a single
  writer.
* `Arc` sharing disappears: entities are plain values.
* The `AtomicUsize` metrics counters are `Nat`; the `saturating_sub`
  updates become truncated `Nat` subtraction (which saturates at zero).
* Code that can panic (`expect` / `unwrap`) is modelled with an explicit
  `panicked` outcome carrying the state at the moment of the panic.
-/

namespace Twilight

/-! ## Association-list maps and list sets -/

/-- `DashMap::get` / map lookup: first entry with the given key. -/
def lookupKV {κ α : Type} [DecidableEq κ] : List (κ × α) → κ → Option α
  | [], _ => none
  | (k, v) :: rest, key => if k = key then some v else lookupKV rest key

/-- `DashMap::insert`: replace the entry in place if the key is present,
otherwise append a fresh entry. -/
def insertKV {κ α : Type} [DecidableEq κ] : List (κ × α) → κ → α → List (κ × α)
  | [], key, v => [(key, v)]
  | (k, w) :: rest, key, v =>
    if k = key then (key, v) :: rest else (k, w) :: insertKV rest key v

/-- `DashMap::remove`: drop the entry with the given key, if any. -/
def removeKV {κ α : Type} [DecidableEq κ] : List (κ × α) → κ → List (κ × α)
  | [], _ => []
  | (k, w) :: rest, key => if k = key then rest else (k, w) :: removeKV rest key

/-- `DashMap::contains_key`. -/
def containsKV {κ α : Type} [DecidableEq κ] (m : List (κ × α)) (k : κ) : Bool :=
  (lookupKV m k).isSome

/-- `HashSet::insert` / `BTreeSet::insert`: append if absent. -/
def setInsert {α : Type} [DecidableEq α] (s : List α) (x : α) : List α :=
  if x ∈ s then s else s ++ [x]

/-- `entry(g).or_default().insert(x)` on a map of sets: get-or-create the
guild's set, then insert the member id. -/
def entryInsert (m : List (Nat × List Nat)) (g x : Nat) : List (Nat × List Nat) :=
  insertKV m g (setInsert ((lookupKV m g).getD []) x)

/-! ## Entity models (from `twilight_model` as used by `src/lib.rs`) -/

/-- `twilight_model::user::User` (representative fields; Rust `PartialEq`
compares all of them field-wise). -/
structure User where
  id : Nat
  name : String
  discriminator : String
  bot : Bool
deriving DecidableEq

/-- `twilight_model::user::CurrentUser` (representative fields). -/
structure CurrentUser where
  id : Nat
  name : String
deriving DecidableEq

/-- The three variants of `twilight_model::channel::GuildChannel`. -/
inductive ChannelKind
  | category
  | text
  | voice
deriving DecidableEq

/-- `twilight_model::channel::GuildChannel`: every variant carries an id, an
optional guild id and payload fields (here represented by `name`). -/
structure GuildChannel where
  kind : ChannelKind
  id : Nat
  guild_id : Option Nat
  name : String
deriving DecidableEq

/-- `twilight_model::channel::PrivateChannel` (representative fields). -/
structure PrivateChannel where
  id : Nat
  recipients : List User
  last_message_id : Option Nat
deriving DecidableEq

/-- `twilight_model::channel::Group` (representative fields). -/
structure Group where
  id : Nat
  name : String
deriving DecidableEq

/-- `twilight_model::guild::Role` (representative fields). -/
structure Role where
  id : Nat
  name : String
  position : Nat
  color : Nat
deriving DecidableEq

/-- `twilight_model::guild::Emoji` payload. -/
structure Emoji where
  id : Nat
  animated : Bool
  managed : Bool
  name : String
  require_colons : Bool
  roles : List Nat
  user : Option User
  available : Bool
deriving DecidableEq

/-- `model::CachedEmoji` (`model/emoji.rs`): drops `managed` and `user`. -/
structure CachedEmoji where
  id : Nat
  animated : Bool
  name : String
  require_colons : Bool
  roles : List Nat
  available : Bool
deriving DecidableEq

/-- `impl PartialEq<Emoji> for CachedEmoji` (`model/emoji.rs`): compares the
six stored fields against the payload. -/
def CachedEmoji.eqEmoji (c : CachedEmoji) (e : Emoji) : Bool :=
  c.id = e.id && c.animated = e.animated && c.name = e.name
    && c.require_colons = e.require_colons && c.roles = e.roles
    && c.available = e.available

/-- `twilight_model::guild::Member` payload (fields used by `cache_member`). -/
structure Member where
  user : User
  nick : Option String
  roles : List Nat
deriving DecidableEq

/-- `model::CachedMember` as constructed in `src/lib.rs::cache_member`. -/
structure CachedMember where
  user_id : Nat
  guild_id : Nat
  nick : Option String
  roles : List Nat
  user : User
deriving DecidableEq

/-- `impl PartialEq<Member> for CachedMember`: compares the stored payload
fields and the user id against the incoming member. -/
def CachedMember.eqMember (c : CachedMember) (m : Member) : Bool :=
  c.nick = m.nick && c.roles = m.roles && c.user_id = m.user.id

/-- `twilight_model::guild::Guild` payload (fields used by `cache_guild`;
the `channels`/`emojis`/`members`/`roles` maps become lists of their
values, matching `into_iter().map(|(_, v)| v)`). -/
structure Guild where
  id : Nat
  name : String
  owner_id : Nat
  icon : Option String
  max_members : Option Nat
  member_count : Option Nat
  permissions : Option Nat
  system_channel_id : Option Nat
  unavailable : Bool
  channels : List GuildChannel
  emojis : List Emoji
  members : List Member
  roles : List Role
deriving DecidableEq

/-- `model::CachedGuild` as constructed in `src/lib.rs::cache_guild`. -/
structure CachedGuild where
  id : Nat
  icon : Option String
  max_members : Option Nat
  member_count : Option Nat
  name : String
  owner_id : Nat
  permissions : Option Nat
  system_channel_id : Option Nat
  unavailable : Bool
deriving DecidableEq

/-- `model::CachedMessage` (fields relevant to the message ring buffer). -/
structure CachedMessage where
  id : Nat
  channel_id : Nat
  author : Nat
  content : String
deriving DecidableEq

/-- `GuildItem<T>` (`src/lib.rs`): entity data tagged with the owning guild. -/
structure GuildItem (α : Type) where
  data : α
  guild_id : Nat
deriving DecidableEq

/-- `stats::Metrics`: the `AtomicUsize` live counters. -/
structure Metrics where
  channels_guild : Nat := 0
  channels_private : Nat := 0
  emojis : Nat := 0
  guilds : Nat := 0
  members : Nat := 0
  messages : Nat := 0
  roles : Nat := 0
  unavailable_guilds : Nat := 0
  users : Nat := 0
deriving DecidableEq

/-- `InMemoryCacheRef` (`src/lib.rs`): all primary and secondary indices.
`messageCacheSize` stands for the `Config` message-cache-size setting
consumed by the message ring buffer. -/
structure Cache where
  channels_guild : List (Nat × GuildItem GuildChannel) := []
  channels_private : List (Nat × PrivateChannel) := []
  current_user : Option CurrentUser := none
  emojis : List (Nat × GuildItem CachedEmoji) := []
  groups : List (Nat × Group) := []
  guilds : List (Nat × CachedGuild) := []
  guild_channels : List (Nat × List Nat) := []
  guild_emojis : List (Nat × List Nat) := []
  guild_members : List (Nat × List Nat) := []
  guild_roles : List (Nat × List Nat) := []
  members : List ((Nat × Nat) × CachedMember) := []
  messages : List (Nat × List CachedMessage) := []
  roles : List (Nat × GuildItem Role) := []
  unavailable_guilds : List Nat := []
  users : List (Nat × (User × List Nat)) := []
  messageCacheSize : Nat := 100
  metrics : Metrics := {}
deriving DecidableEq

/-- A freshly constructed empty cache with the given message-cache size
(`InMemoryCache::new` / `Default`). -/
def emptyCache (msgSize : Nat) : Cache :=
  { messageCacheSize := msgSize }

/-! ## Read API (`src/lib.rs`) -/

/-- `InMemoryCache::user`. -/
def Cache.user (c : Cache) (user_id : Nat) : Option User :=
  (lookupKV c.users user_id).map (·.1)

/-- The reverse-reference guild set tracked for a user. -/
def Cache.trackedGuilds (c : Cache) (user_id : Nat) : Option (List Nat) :=
  (lookupKV c.users user_id).map (·.2)

/-- `InMemoryCache::guild_channel`. -/
def Cache.guildChannel (c : Cache) (channel_id : Nat) : Option GuildChannel :=
  (lookupKV c.channels_guild channel_id).map (·.data)

/-- `InMemoryCache::guild_channels`. -/
def Cache.guildChannels (c : Cache) (guild_id : Nat) : Option (List Nat) :=
  lookupKV c.guild_channels guild_id

/-- `InMemoryCache::guild_emojis`. -/
def Cache.guildEmojis (c : Cache) (guild_id : Nat) : Option (List Nat) :=
  lookupKV c.guild_emojis guild_id

/-- `InMemoryCache::guild_members`. -/
def Cache.guildMembers (c : Cache) (guild_id : Nat) : Option (List Nat) :=
  lookupKV c.guild_members guild_id

/-- `InMemoryCache::guild_roles`. -/
def Cache.guildRoles (c : Cache) (guild_id : Nat) : Option (List Nat) :=
  lookupKV c.guild_roles guild_id

/-- `InMemoryCache::first_message`: the back (oldest entry) of the
channel's deque. -/
def Cache.firstMessage (c : Cache) (channel_id : Nat) : Option Nat :=
  (lookupKV c.messages channel_id).bind fun q => q.getLast?.map (·.id)

/-- `InMemoryCache::last_message`: the front (newest entry) of the
channel's deque. -/
def Cache.lastMessage (c : Cache) (channel_id : Nat) : Option Nat :=
  (lookupKV c.messages channel_id).bind fun q => q.head?.map (·.id)

/-- `InMemoryCache::private_channel`. -/
def Cache.privateChannel (c : Cache) (user_id : Nat) : Option PrivateChannel :=
  lookupKV c.channels_private user_id

/-- `InMemoryCache::emoji`. -/
def Cache.emoji (c : Cache) (emoji_id : Nat) : Option CachedEmoji :=
  (lookupKV c.emojis emoji_id).map (·.data)

/-- Owning guild of a cached emoji (the `GuildItem` ownership tag). -/
def Cache.emojiOwner (c : Cache) (emoji_id : Nat) : Option Nat :=
  (lookupKV c.emojis emoji_id).map (·.guild_id)

/-! ## Upsert engine (`src/lib.rs`) -/

/-- `cache_user` (`src/lib.rs` lines 752-776): on a field-wise-equal hit the
guild id (when given) joins the reverse-reference set; otherwise a
replacement entry holding only the given guild id is inserted — but only
when a guild id is given.  Returns the cache together with the user value
the `Arc` would point to. -/
def cache_user (c : Cache) (u : User) (guild_id : Option Nat) : Cache × User :=
  match lookupKV c.users u.id with
  | some (u₀, s) =>
    if u₀ = u then
      match guild_id with
      | some g => ({ c with users := insertKV c.users u.id (u₀, setInsert s g) }, u₀)
      | none => (c, u₀)
    else
      match guild_id with
      | some g => ({ c with users := insertKV c.users u.id (u, [g]) }, u)
      | none => (c, u)
  | none =>
    let c := { c with metrics := { c.metrics with users := c.metrics.users + 1 } }
    match guild_id with
    | some g => ({ c with users := insertKV c.users u.id (u, [g]) }, u)
    | none => (c, u)

/-- `cache_guild_channel` (`src/lib.rs` lines 442-486): back-fill the guild
id, record the id in the guild's secondary set, then upsert the primary
entry with equality-based dedup. -/
def cache_guild_channel (c : Cache) (guild_id : Nat) (channel : GuildChannel) : Cache :=
  let channel := { channel with guild_id := some guild_id }
  let c := { c with guild_channels := entryInsert c.guild_channels guild_id channel.id }
  match lookupKV c.channels_guild channel.id with
  | some item =>
    if item.data = channel then c
    else { c with channels_guild := insertKV c.channels_guild channel.id ⟨channel, guild_id⟩ }
  | none =>
    { c with
      metrics := { c.metrics with channels_guild := c.metrics.channels_guild + 1 },
      channels_guild := insertKV c.channels_guild channel.id ⟨channel, guild_id⟩ }

/-- `cache_guild_channels`. -/
def cache_guild_channels (c : Cache) (guild_id : Nat) (chans : List GuildChannel) : Cache :=
  chans.foldl (fun c ch => cache_guild_channel c guild_id ch) c

/-- Tail of `cache_emoji` after the dedup check: cache the creator user,
insert the cached emoji under the new owner, add the id to the owner's
secondary set. -/
def cache_emoji_store (c : Cache) (guild_id : Nat) (e : Emoji) : Cache :=
  let c := match e.user with
    | some u => (cache_user c u (some guild_id)).1
    | none => c
  let cached : CachedEmoji :=
    { id := e.id, animated := e.animated, name := e.name,
      require_colons := e.require_colons, roles := e.roles, available := e.available }
  let c := { c with emojis := insertKV c.emojis cached.id ⟨cached, guild_id⟩ }
  { c with guild_emojis := entryInsert c.guild_emojis guild_id e.id }

/-- `cache_emoji` (`src/lib.rs` lines 488-523): an equal hit returns before
touching any index; a changed or absent emoji is stored under the new
owner.  The previous owner's secondary set is never cleaned up. -/
def cache_emoji (c : Cache) (guild_id : Nat) (e : Emoji) : Cache :=
  match lookupKV c.emojis e.id with
  | some item =>
    if item.data.eqEmoji e then c else cache_emoji_store c guild_id e
  | none =>
    cache_emoji_store
      { c with metrics := { c.metrics with emojis := c.metrics.emojis + 1 } } guild_id e

/-- `cache_emojis`. -/
def cache_emojis (c : Cache) (guild_id : Nat) (es : List Emoji) : Cache :=
  es.foldl (fun c e => cache_emoji c guild_id e) c

/-- Tail of `cache_member` after the dedup check: cache the user with guild
context, store the cached member, add the user id to the guild's member
secondary set. -/
def cache_member_store (c : Cache) (guild_id : Nat) (m : Member) : Cache :=
  let p := cache_user c m.user (some guild_id)
  let c := p.1
  let cached : CachedMember :=
    { user_id := p.2.id, guild_id := guild_id, nick := m.nick,
      roles := m.roles, user := p.2 }
  let c := { c with members := insertKV c.members (guild_id, m.user.id) cached }
  { c with guild_members := entryInsert c.guild_members guild_id m.user.id }

/-- `cache_member` (`src/lib.rs` lines 630-655): an equal hit returns before
touching the secondary set. -/
def cache_member (c : Cache) (guild_id : Nat) (m : Member) : Cache :=
  match lookupKV c.members (guild_id, m.user.id) with
  | some cm =>
    if cm.eqMember m then c else cache_member_store c guild_id m
  | none =>
    cache_member_store
      { c with metrics := { c.metrics with members := c.metrics.members + 1 } } guild_id m

/-- `cache_members`. -/
def cache_members (c : Cache) (guild_id : Nat) (ms : List Member) : Cache :=
  ms.foldl (fun c m => cache_member c guild_id m) c

/-- `cache_role` (`src/lib.rs` lines 723-750): record the id in the guild's
secondary set, then upsert the primary entry with equality-based dedup. -/
def cache_role (c : Cache) (guild_id : Nat) (r : Role) : Cache :=
  let c := { c with guild_roles := entryInsert c.guild_roles guild_id r.id }
  match lookupKV c.roles r.id with
  | some item =>
    if item.data = r then c
    else { c with roles := insertKV c.roles r.id ⟨r, guild_id⟩ }
  | none =>
    { c with
      metrics := { c.metrics with roles := c.metrics.roles + 1 },
      roles := insertKV c.roles r.id ⟨r, guild_id⟩ }

/-- `cache_roles`. -/
def cache_roles (c : Cache) (guild_id : Nat) (rs : List Role) : Cache :=
  rs.foldl (fun c r => cache_role c guild_id r) c

/-- The four `entry(id).and_modify(clear + counter decrement).or_default()`
statements opening `cache_guild` (`src/lib.rs` lines 552-599): each
occupied secondary set is emptied and its counter lowered (saturating) by
the set's prior size; a vacant entry becomes an empty set. -/
def clearGuildSets (c : Cache) (guild_id : Nat) : Cache :=
  let c := match lookupKV c.guild_channels guild_id with
    | some s =>
      { c with
        metrics := { c.metrics with channels_guild := c.metrics.channels_guild - s.length },
        guild_channels := insertKV c.guild_channels guild_id [] }
    | none => { c with guild_channels := insertKV c.guild_channels guild_id [] }
  let c := match lookupKV c.guild_emojis guild_id with
    | some s =>
      { c with
        metrics := { c.metrics with emojis := c.metrics.emojis - s.length },
        guild_emojis := insertKV c.guild_emojis guild_id [] }
    | none => { c with guild_emojis := insertKV c.guild_emojis guild_id [] }
  let c := match lookupKV c.guild_members guild_id with
    | some s =>
      { c with
        metrics := { c.metrics with members := c.metrics.members - s.length },
        guild_members := insertKV c.guild_members guild_id [] }
    | none => { c with guild_members := insertKV c.guild_members guild_id [] }
  match lookupKV c.guild_roles guild_id with
  | some s =>
    { c with
      metrics := { c.metrics with roles := c.metrics.roles - s.length },
      guild_roles := insertKV c.guild_roles guild_id [] }
  | none => { c with guild_roles := insertKV c.guild_roles guild_id [] }

/-- The `CachedGuild` built at the end of `cache_guild`. -/
def Guild.toCached (g : Guild) : CachedGuild :=
  { id := g.id, icon := g.icon, max_members := g.max_members,
    member_count := g.member_count, name := g.name, owner_id := g.owner_id,
    permissions := g.permissions, system_channel_id := g.system_channel_id,
    unavailable := g.unavailable }

/-- `cache_guild` (`src/lib.rs` lines 549-628): clear the guild's four
secondary sets (decrementing the counters), bulk-insert the payload's
channels, emojis, members and roles, drop the id from the unavailable set,
then insert the `CachedGuild` (counting it only when new). -/
def cache_guild (c : Cache) (g : Guild) : Cache :=
  let c := clearGuildSets c g.id
  let c := cache_guild_channels c g.id g.channels
  let c := cache_emojis c g.id g.emojis
  let c := cache_members c g.id g.members
  let c := cache_roles c g.id g.roles
  let c :=
    if g.id ∈ c.unavailable_guilds then
      { c with
        unavailable_guilds := c.unavailable_guilds.erase g.id,
        metrics := { c.metrics with
          unavailable_guilds := c.metrics.unavailable_guilds - 1 } }
    else c
  if containsKV c.guilds g.id then
    { c with guilds := insertKV c.guilds g.id g.toCached }
  else
    { c with
      guilds := insertKV c.guilds g.id g.toCached,
      metrics := { c.metrics with guilds := c.metrics.guilds + 1 } }

/-- Outcome of an operation that may hit a Rust `panic!` / `expect`: the
`panicked` constructor carries the cache state at the moment of the panic. -/
inductive PanicOr (α : Type) where
  | panicked (state : Cache) (msg : String)
  | ok (a : α)
deriving DecidableEq

/-- `cache_private_channel` (`src/lib.rs` lines 694-715): the key is the
first recipient's user id, computed by `expect` before any index is
touched; zero recipients therefore panic with the store unchanged. -/
def cache_private_channel (c : Cache) (pc : PrivateChannel) : PanicOr Cache :=
  match pc.recipients.head? with
  | none => .panicked c "no recipients for private channel"
  | some r =>
    let c :=
      if containsKV c.channels_private r.id then c
      else { c with metrics := { c.metrics with
        channels_private := c.metrics.channels_private + 1 } }
    match lookupKV c.channels_private r.id with
    | some existing =>
      if existing = pc then .ok c
      else .ok { c with channels_private := insertKV c.channels_private r.id pc }
    | none => .ok { c with channels_private := insertKV c.channels_private r.id pc }

/-- `cache_current_user` (`src/lib.rs` lines 418-430): in-place swap or
replacement — observably, the slot now holds the incoming value. -/
def cache_current_user (c : Cache) (cu : CurrentUser) : Cache :=
  { c with current_user := some cu }

/-- `clear` (`src/lib.rs` lines 403-416): clears exactly the six stores
named in the body — guild channels, the current user, emojis, guilds,
roles and users — and nothing else. -/
def Cache.clear (c : Cache) : Cache :=
  { c with
    channels_guild := [],
    current_user := none,
    emojis := [],
    guilds := [],
    roles := [],
    users := [] }

/-! ## Operations modelled from the spec (code absent from `src/`) -/

/-- Modelled from the spec: `remove_user_from_guild` lives in the event
reducer module (`updates.rs` / `event/member.rs`), which is absent from
`src/`.  Spec §4.2: it "removes guild_id from the reverse-set; if the
reverse-set becomes empty, the user entry itself is removed from the
primary map" (and the user counter reflects the net delete, spec §3). -/
def remove_user_from_guild (c : Cache) (user_id guild_id : Nat) : Cache :=
  match lookupKV c.users user_id with
  | none => c
  | some (u, s) =>
    let s := s.erase guild_id
    if s = [] then
      { c with
        users := removeKV c.users user_id,
        metrics := { c.metrics with users := c.metrics.users - 1 } }
    else
      { c with users := insertKV c.users user_id (u, s) }

/-! ## Cold resume (`src/redis.rs`) -/

/-- `model::ColdStorageUser` (`model/cold_user.rs`): the user's fields plus
its reverse-reference guild set; `Into<(User, BTreeSet<GuildId>)>` splits
them back apart. -/
structure ColdStorageUser where
  user : User
  guilds : List Nat
deriving DecidableEq

/-- Modelled from the spec: `ColdStorageMember` lives in the old
`model/member.rs`, absent from `src/`; its shape is fixed by the
`defrost_members` / `_prepare_cold_resume_member` call sites in
`src/redis.rs` — the member key pair plus the cached payload fields, with
`into_cached_member(user)` rebuilding a `CachedMember` around a looked-up
user. -/
structure ColdStorageMember where
  guild_id : Nat
  user_id : Nat
  nick : Option String
  roles : List Nat
deriving DecidableEq

/-- `ColdStorageMember::into_cached_member` as used by `defrost_members`. -/
def ColdStorageMember.into_cached_member (m : ColdStorageMember) (u : User) : CachedMember :=
  { user_id := m.user_id, guild_id := m.guild_id, nick := m.nick,
    roles := m.roles, user := u }

/-- `model::ColdStorageTextChannel` (`model/cold_textchannel.rs`): a text
channel plus its (optional) owning guild id; `Into<GuildItem<GuildChannel>>`
calls `self.guild_id.unwrap()`. -/
structure ColdStorageTextChannel where
  guild_id : Option Nat
  id : Nat
  name : String
deriving DecidableEq

/-- The `GuildChannel::Text` rebuilt by the `Into` conversion. -/
def ColdStorageTextChannel.toChannel (ch : ColdStorageTextChannel) : GuildChannel :=
  { kind := .text, id := ch.id, guild_id := ch.guild_id, name := ch.name }

/-- `model::ColdStorageEmoji` (`model/emoji.rs`). -/
structure ColdStorageEmoji where
  guild_id : Nat
  data : CachedEmoji
deriving DecidableEq

/-- `model::ColdStorageRole` (`model/cold_role.rs`). -/
structure ColdStorageRole where
  guild_id : Nat
  data : Role
deriving DecidableEq

/-- Result of fetching and deserializing one chunk key:
`connection.get` returns `Result<Option<bytes>>` (`storageErr` / `missing`
/ payload) and `serde_json::from_slice` may fail (`malformed`). -/
inductive ChunkFetch (α : Type) where
  | storageErr
  | missing
  | malformed
  | ok (xs : List α)

/-- Same for the single current-user key. -/
inductive FetchOne (α : Type) where
  | storageErr
  | missing
  | malformed
  | ok (x : α)

/-- The external key-value store, as seen by the defrost path: what each
chunk key of each resource type yields. -/
structure RedisStore where
  guildChunk : Nat → ChunkFetch CachedGuild
  userChunk : Nat → ChunkFetch ColdStorageUser
  memberChunk : Nat → ChunkFetch ColdStorageMember
  channelChunk : Nat → ChunkFetch ColdStorageTextChannel
  emojiChunk : Nat → ChunkFetch ColdStorageEmoji
  roleChunk : Nat → ChunkFetch ColdStorageRole
  unavailableChunk : Nat → ChunkFetch Nat
  currentUser : FetchOne CurrentUser

/-- `redis::ColdRebootData`: the per-resource chunk counts stored in the
top-level restart-metadata key. -/
structure ColdRebootData where
  guild_chunks : Nat
  user_chunks : Nat
  member_chunks : Nat
  channel_chunks : Nat
  emoji_chunks : Nat
  role_chunks : Nat
  unavailable_guild_chunks : Nat
deriving DecidableEq

/-- Outcome of defrosting one chunk: `failed` is an error propagated with
`?` (storage error or deserialization error); `panicked` is the `unwrap()`
on a missing key.  Both carry the cache state at that point. -/
inductive Defrost where
  | panicked (c : Cache) (msg : String)
  | failed (c : Cache)
  | ok (c : Cache)

/-- Body of the `for guild in guilds` loop of `defrost_guilds`
(`src/redis.rs` lines 195-197): plain inserts, no dedup, no counters. -/
def defrostGuildsApply (c : Cache) (gs : List CachedGuild) : Cache :=
  gs.foldl (fun c g => { c with guilds := insertKV c.guilds g.id g }) c

/-- `defrost_guilds` (`src/redis.rs` lines 184-199): fetch the chunk key
(`?` on a storage error, `unwrap` panic on a missing key), deserialize
(`?` on malformed data), then insert every guild. -/
def defrost_guilds (st : RedisStore) (c : Cache) (i : Nat) : Defrost :=
  match st.guildChunk i with
  | .storageErr => .failed c
  | .missing => .panicked c "called Option::unwrap on a None value"
  | .malformed => .failed c
  | .ok gs => .ok (defrostGuildsApply c gs)

/-- Loop body of `defrost_users`. -/
def defrostUsersApply (c : Cache) (us : List ColdStorageUser) : Cache :=
  us.foldl (fun c u => { c with users := insertKV c.users u.user.id (u.user, u.guilds) }) c

/-- `defrost_users` (`src/redis.rs` lines 201-217). -/
def defrost_users (st : RedisStore) (c : Cache) (i : Nat) : Defrost :=
  match st.userChunk i with
  | .storageErr => .failed c
  | .missing => .panicked c "called Option::unwrap on a None value"
  | .malformed => .failed c
  | .ok us => .ok (defrostUsersApply c us)

/-- Loop body of `defrost_members`: the guild-members secondary set is
extended first; a member whose user is not cached is skipped
(`continue`). -/
def defrostMembersApply (c : Cache) (ms : List ColdStorageMember) : Cache :=
  ms.foldl
    (fun c m =>
      let c := { c with guild_members := entryInsert c.guild_members m.guild_id m.user_id }
      match lookupKV c.users m.user_id with
      | none => c
      | some (u, _) =>
        { c with
          members := insertKV c.members (m.guild_id, m.user_id) (m.into_cached_member u) })
    c

/-- `defrost_members` (`src/redis.rs` lines 219-250). -/
def defrost_members (st : RedisStore) (c : Cache) (i : Nat) : Defrost :=
  match st.memberChunk i with
  | .storageErr => .failed c
  | .missing => .panicked c "called Option::unwrap on a None value"
  | .malformed => .failed c
  | .ok ms => .ok (defrostMembersApply c ms)

/-- Loop body of `defrost_channels`: `channel.guild_id.unwrap()` panics on
a channel without a guild id. -/
def defrostChannelsApply (c : Cache) : List ColdStorageTextChannel → Defrost
  | [] => .ok c
  | ch :: rest =>
    match ch.guild_id with
    | none => .panicked c "called Option::unwrap on a None value"
    | some g =>
      let c := { c with guild_channels := entryInsert c.guild_channels g ch.id }
      let c := { c with channels_guild := insertKV c.channels_guild ch.id ⟨ch.toChannel, g⟩ }
      defrostChannelsApply c rest

/-- `defrost_channels` (`src/redis.rs` lines 252-276). -/
def defrost_channels (st : RedisStore) (c : Cache) (i : Nat) : Defrost :=
  match st.channelChunk i with
  | .storageErr => .failed c
  | .missing => .panicked c "called Option::unwrap on a None value"
  | .malformed => .failed c
  | .ok chs => defrostChannelsApply c chs

/-- Loop body of `defrost_emojis`. -/
def defrostEmojisApply (c : Cache) (es : List ColdStorageEmoji) : Cache :=
  es.foldl
    (fun c e =>
      let c := { c with guild_emojis := entryInsert c.guild_emojis e.guild_id e.data.id }
      { c with emojis := insertKV c.emojis e.data.id ⟨e.data, e.guild_id⟩ })
    c

/-- `defrost_emojis` (`src/redis.rs` lines 278-299). -/
def defrost_emojis (st : RedisStore) (c : Cache) (i : Nat) : Defrost :=
  match st.emojiChunk i with
  | .storageErr => .failed c
  | .missing => .panicked c "called Option::unwrap on a None value"
  | .malformed => .failed c
  | .ok es => .ok (defrostEmojisApply c es)

/-- Loop body of `defrost_roles`. -/
def defrostRolesApply (c : Cache) (rs : List ColdStorageRole) : Cache :=
  rs.foldl
    (fun c r =>
      let c := { c with guild_roles := entryInsert c.guild_roles r.guild_id r.data.id }
      { c with roles := insertKV c.roles r.data.id ⟨r.data, r.guild_id⟩ })
    c

/-- `defrost_roles` (`src/redis.rs` lines 301-322). -/
def defrost_roles (st : RedisStore) (c : Cache) (i : Nat) : Defrost :=
  match st.roleChunk i with
  | .storageErr => .failed c
  | .missing => .panicked c "called Option::unwrap on a None value"
  | .malformed => .failed c
  | .ok rs => .ok (defrostRolesApply c rs)

/-- `defrost_unavailable_guilds` (`src/redis.rs` lines 324-343). -/
def defrost_unavailable_guilds (st : RedisStore) (c : Cache) (i : Nat) : Defrost :=
  match st.unavailableChunk i with
  | .storageErr => .failed c
  | .missing => .panicked c "called Option::unwrap on a None value"
  | .malformed => .failed c
  | .ok gs =>
    .ok (gs.foldl (fun c g => { c with unavailable_guilds := setInsert c.unavailable_guilds g }) c)

/-- Result of `restore_cold_resume`: `failed` carries the resource-type
name reported by the `map_err` at each stage (`src/redis.rs` lines
94-146) and the partially populated state the failure left behind. -/
inductive RestoreResult where
  | panicked (c : Cache) (msg : String)
  | failed (resource : String) (c : Cache)
  | ok (c : Cache)

/-- Run the chunk tasks of one resource type in index order, stopping at
the first failure (`future::try_join_all` fail-fast aggregation). -/
def runChunks (step : Cache → Nat → Defrost) : Cache → List Nat → Defrost
  | c, [] => .ok c
  | c, i :: rest =>
    match step c i with
    | .panicked c m => .panicked c m
    | .failed c => .failed c
    | .ok c => runChunks step c rest

/-- Lift one resource type's chunk run to a named `RestoreResult`. -/
def runResource (name : String) (step : Cache → Nat → Defrost) (c : Cache) (n : Nat) :
    RestoreResult :=
  match runChunks step c (List.range n) with
  | .panicked c m => .panicked c m
  | .failed c => .failed name c
  | .ok c => .ok c

/-- Sequencing of resource-type restores. -/
def RestoreResult.andThen (r : RestoreResult) (f : Cache → RestoreResult) : RestoreResult :=
  match r with
  | .panicked c m => .panicked c m
  | .failed name c => .failed name c
  | .ok c => f c

/-- `restore_cold_resume` (`src/redis.rs` lines 89-182): restore guilds,
users, members, channels, emojis, roles, unavailable guilds and the
current user in that order, stopping at the first failing resource type
and tagging the error with that type's name. -/
def restore_cold_resume (st : RedisStore) (c : Cache) (d : ColdRebootData) : RestoreResult :=
  (runResource "guilds" (defrost_guilds st) c d.guild_chunks).andThen fun c =>
  (runResource "users" (defrost_users st) c d.user_chunks).andThen fun c =>
  (runResource "members" (defrost_members st) c d.member_chunks).andThen fun c =>
  (runResource "channels" (defrost_channels st) c d.channel_chunks).andThen fun c =>
  (runResource "emojis" (defrost_emojis st) c d.emoji_chunks).andThen fun c =>
  (runResource "roles" (defrost_roles st) c d.role_chunks).andThen fun c =>
  (runResource "unavailable guilds" (defrost_unavailable_guilds st) c
      d.unavailable_guild_chunks).andThen fun c =>
  match st.currentUser with
  | .storageErr => .failed "current_user" c
  | .missing => .panicked c "called Option::unwrap on a None value"
  | .malformed => .failed "current_user" c
  | .ok u => .ok (cache_current_user c u)

/-- The restore path of `from_redis` (`src/redis.rs` lines 68-79): run the
restore on a fresh cache; on a reported failure call `clear()` and proceed
with the result; a panic propagates. -/
def from_redis_restore (st : RedisStore) (d : ColdRebootData) (msgSize : Nat) : PanicOr Cache :=
  match restore_cold_resume st (emptyCache msgSize) d with
  | .panicked c m => .panicked c m
  | .failed _ c => .ok c.clear
  | .ok c => .ok c

/-! ## Freeze-side chunking (`prepare_cold_resume`, `src/redis.rs`) -/

/-- The chunk count used for every resource type in `prepare_cold_resume`:
`len / 100_000 + 1` (`src/redis.rs` line 369 for guilds). -/
def guildChunkCount (n : Nat) : Nat := n / 100000 + 1

/-- `work_orders[j].push(x)`: append `x` to bucket `j`. -/
def pushBucket {α : Type} (bs : List (List α)) (j : Nat) (x : α) : List (List α) :=
  bs.set j ((bs.getD j []) ++ [x])

/-- The distribution loop `for (i, guard) in iter().enumerate()
{ work_orders[i % chunks].push(key) }`. -/
def rrGo {α : Type} (k : Nat) : List (List α) → Nat → List α → List (List α)
  | bs, _, [] => bs
  | bs, i, x :: xs => rrGo k (pushBucket bs (i % k) x) (i + 1) xs

/-- Round-robin distribution of a resource's entries over `k` buckets. -/
def roundRobin {α : Type} (k : Nat) (l : List α) : List (List α) :=
  rrGo k (List.replicate k []) 0 l

/-- The guild part of `prepare_cold_resume` (`src/redis.rs` lines
367-380): the stored guilds are distributed round-robin over
`guilds.len() / 100_000 + 1` chunks (each chunk task then drains its keys
from the map and serializes them). -/
def prepare_cold_resume_guilds (c : Cache) : List (List CachedGuild) :=
  roundRobin (guildChunkCount c.guilds.length) (c.guilds.map (·.2))

/-- Restoring a list of guild chunks into a cache: every chunk goes
through the `defrost_guilds` insert loop. -/
def restoreGuildChunks (c : Cache) (chunks : List (List CachedGuild)) : Cache :=
  chunks.foldl defrostGuildsApply c

/-- The list-level ring-buffer push: the front-push plus conditional
back-drop of the message append. -/
def pushRing (cap : Nat) (q : List CachedMessage) (m : CachedMessage) : List CachedMessage :=
  let q := m :: q
  if cap < q.length then q.dropLast else q

/-- Modelled from the spec: the message-append reducer lives in
`updates.rs` / `event/message.rs`, absent from `src/`.  Spec §4.2: "push
new message to front of the channel's ring buffer; if buffer length
exceeds the configured cap, drop the oldest (back) entry". -/
def cache_message (c : Cache) (m : CachedMessage) : Cache :=
  { c with
    messages := insertKV c.messages m.channel_id
      (pushRing c.messageCacheSize ((lookupKV c.messages m.channel_id).getD []) m) }

/-- The cache state an operation outcome left behind (the panic state for
`panicked`, the result for `ok`). -/
def PanicOr.stateOf : PanicOr Cache → Cache
  | .panicked c _ => c
  | .ok c => c

/-- Whether the operation completed without panicking. -/
def PanicOr.isOk : PanicOr Cache → Bool
  | .panicked _ _ => false
  | .ok _ => true

/-! ## Concrete scenario inputs used by the claim theorems and witnesses -/

/-- Emoji payload used in concrete scenarios. -/
def emojiA : Emoji :=
  { id := 77, animated := false, managed := false, name := "blob",
    require_colons := true, roles := [], user := none, available := true }

/-- The same emoji id with a changed name. -/
def emojiB : Emoji :=
  { id := 77, animated := false, managed := false, name := "blob2",
    require_colons := true, roles := [], user := none, available := true }

/-- A one-recipient private channel for the witness. -/
def privChanW : PrivateChannel :=
  { id := 5, recipients := [{ id := 9, name := "r", discriminator := "0001", bot := false }],
    last_message_id := none }

/-- User 42. -/
def userA : User := { id := 42, name := "alice", discriminator := "0001", bot := false }

/-- User 42 with a changed name (field-wise different, same id). -/
def userA2 : User := { id := 42, name := "alicia", discriminator := "0001", bot := false }

/-- The cache after tracking user 42 in guild 1. -/
def cacheU1 : Cache := (cache_user (emptyCache 100) userA (some 1)).1

/-- Member payload: user 2 ("bob"). -/
def memberB : Member :=
  { user := { id := 2, name := "bob", discriminator := "0002", bot := false },
    nick := none, roles := [] }

/-- The cache after caching member 2 of guild 1. -/
def cacheM : Cache := cache_member (emptyCache 100) 1 memberB

/-- A text channel without a guild id, as delivered inside a guild-create
payload. -/
def chX : GuildChannel := { kind := .text, id := 10, guild_id := none, name := "general" }

/-- A full guild payload with one channel and one member. -/
def guildG : Guild :=
  { id := 1, name := "g", owner_id := 99, icon := none, max_members := none,
    member_count := none, permissions := none, system_channel_id := none,
    unavailable := false, channels := [chX], emojis := [], members := [memberB],
    roles := [] }

/-- The cache after caching `guildG` once. -/
def cacheG1 : Cache := cache_guild (emptyCache 100) guildG

/-- The cache after caching `guildG` twice. -/
def cacheG2 : Cache := cache_guild cacheG1 guildG

/-- Message `i` in channel 7. -/
def msgW (i : Nat) : CachedMessage := { id := i, channel_id := 7, author := 1, content := "" }

/-- Channel 11, previously cached for guild 1. -/
def ch11 : GuildChannel := { kind := .text, id := 11, guild_id := none, name := "old" }

/-- Channel 22, cached for the sibling guild 2. -/
def ch22 : GuildChannel := { kind := .text, id := 22, guild_id := none, name := "sib" }

/-- A cache holding channel 11 under guild 1 and channel 22 under guild 2. -/
def cachePre : Cache :=
  cache_guild_channel (cache_guild_channel (emptyCache 100) 1 ch11) 2 ch22

/-- A new full snapshot of guild 1 whose channel list has only channel 10. -/
def guildSnap : Guild :=
  { id := 1, name := "g", owner_id := 99, icon := none, max_members := none,
    member_count := none, permissions := none, system_channel_id := none,
    unavailable := false,
    channels := [{ kind := .text, id := 10, guild_id := none, name := "new" }],
    emojis := [], members := [], roles := [] }

/-- A guild value for the 150,000-entry scenario. -/
def dummyGuild : CachedGuild :=
  { id := 0, icon := none, max_members := none, member_count := none, name := "",
    owner_id := 0, permissions := none, system_channel_id := none, unavailable := false }

/-- The resource-type name a restore failure reports, if any. -/
def RestoreResult.resourceOf : RestoreResult → Option String
  | .failed r _ => some r
  | _ => none

/-- A store whose single guild chunk key is missing. -/
def storeMissing : RedisStore :=
  { guildChunk := fun _ => .missing,
    userChunk := fun _ => .ok [],
    memberChunk := fun _ => .ok [],
    channelChunk := fun _ => .ok [],
    emojiChunk := fun _ => .ok [],
    roleChunk := fun _ => .ok [],
    unavailableChunk := fun _ => .ok [],
    currentUser := .ok { id := 0, name := "bot" } }

/-- Reboot metadata announcing one guild chunk and nothing else. -/
def rebootOne : ColdRebootData :=
  { guild_chunks := 1, user_chunks := 0, member_chunks := 0, channel_chunks := 0,
    emoji_chunks := 0, role_chunks := 0, unavailable_guild_chunks := 0 }

/-- The guild restored in the partial-restore scenario. -/
def guildOne : CachedGuild := { dummyGuild with id := 1 }

/-- Cold-stored user 2, member of guild 1. -/
def coldUserW : ColdStorageUser :=
  { user := { id := 2, name := "bob", discriminator := "0002", bot := false }, guilds := [1] }

/-- Cold-stored member (guild 1, user 2). -/
def coldMemberW : ColdStorageMember := { guild_id := 1, user_id := 2, nick := none, roles := [] }

/-- A store whose guild, user and member chunks restore fine but whose
channel chunk is malformed. -/
def storePartial : RedisStore :=
  { guildChunk := fun _ => .ok [guildOne],
    userChunk := fun _ => .ok [coldUserW],
    memberChunk := fun _ => .ok [coldMemberW],
    channelChunk := fun _ => .malformed,
    emojiChunk := fun _ => .ok [],
    roleChunk := fun _ => .ok [],
    unavailableChunk := fun _ => .ok [],
    currentUser := .ok { id := 0, name := "bot" } }

/-- Reboot metadata with one chunk each of guilds, users, members and
channels. -/
def rebootPartial : ColdRebootData :=
  { guild_chunks := 1, user_chunks := 1, member_chunks := 1, channel_chunks := 1,
    emoji_chunks := 0, role_chunks := 0, unavailable_guild_chunks := 0 }

/-! ## Map and set lemmas -/

theorem lookupKV_insertKV_self {κ α : Type} [DecidableEq κ] (m : List (κ × α)) (k : κ) (v : α) :
    lookupKV (insertKV m k v) k = some v := by
  induction m with
  | nil => simp [insertKV, lookupKV]
  | cons p rest ih =>
    obtain ⟨k₀, w⟩ := p
    by_cases h : k₀ = k
    · simp [insertKV, h, lookupKV]
    · simp [insertKV, h, lookupKV, ih]

theorem lookupKV_insertKV_ne {κ α : Type} [DecidableEq κ] (m : List (κ × α)) (k k' : κ) (v : α)
    (h : k' ≠ k) : lookupKV (insertKV m k v) k' = lookupKV m k' := by
  induction m with
  | nil => simp [insertKV, lookupKV, Ne.symm h]
  | cons p rest ih =>
    obtain ⟨k₀, w⟩ := p
    simp only [insertKV]
    by_cases hk : k₀ = k
    · subst hk
      simp [lookupKV, Ne.symm h]
    · simp only [if_neg hk, lookupKV]
      by_cases hk' : k₀ = k'
      · simp [if_pos hk']
      · simp [if_neg hk', ih]

theorem length_insertKV_absent {κ α : Type} [DecidableEq κ] (m : List (κ × α)) (k : κ) (v : α)
    (h : lookupKV m k = none) : (insertKV m k v).length = m.length + 1 := by
  induction m with
  | nil => simp [insertKV]
  | cons p rest ih =>
    obtain ⟨k₀, w⟩ := p
    by_cases hk : k₀ = k
    · simp [lookupKV, hk] at h
    · simp only [lookupKV, hk, if_false] at h
      simp [insertKV, hk, ih h]

theorem lookupKV_eq_none_of_not_mem_keys {κ α : Type} [DecidableEq κ]
    (m : List (κ × α)) (k : κ) (h : k ∉ m.map Prod.fst) : lookupKV m k = none := by
  induction m with
  | nil => rfl
  | cons p rest ih =>
    obtain ⟨k₀, w⟩ := p
    simp only [List.map_cons, List.mem_cons] at h
    push_neg at h
    simp [lookupKV, Ne.symm h.1, ih h.2]

theorem mem_setInsert_self {α : Type} [DecidableEq α] (s : List α) (x : α) :
    x ∈ setInsert s x := by
  by_cases h : x ∈ s <;> simp [setInsert, h]

theorem mem_setInsert_iff {α : Type} [DecidableEq α] (s : List α) (x y : α) :
    y ∈ setInsert s x ↔ y ∈ s ∨ y = x := by
  by_cases h : x ∈ s
  · simp only [setInsert, h, if_true]
    constructor
    · exact Or.inl
    · rintro (hy | rfl) <;> [exact hy; exact h]
  · simp [setInsert, h]

theorem setInsert_ne_nil {α : Type} [DecidableEq α] (s : List α) (x : α) :
    setInsert s x ≠ [] := by
  intro h
  have := mem_setInsert_self s x
  rw [h] at this
  exact absurd this (List.not_mem_nil x)

theorem lookupKV_entryInsert_self (m : List (Nat × List Nat)) (g x : Nat) :
    lookupKV (entryInsert m g x) g = some (setInsert ((lookupKV m g).getD []) x) :=
  lookupKV_insertKV_self ..

theorem lookupKV_entryInsert_ne (m : List (Nat × List Nat)) (g g' x : Nat) (h : g' ≠ g) :
    lookupKV (entryInsert m g x) g' = lookupKV m g' :=
  lookupKV_insertKV_ne _ _ _ _ h

theorem lookupKV_removeKV_self_of_nodup {κ α : Type} [DecidableEq κ]
    (m : List (κ × α)) (k : κ) (h : (m.map Prod.fst).Nodup) :
    lookupKV (removeKV m k) k = none := by
  induction m with
  | nil => rfl
  | cons p rest ih =>
    obtain ⟨k₀, w⟩ := p
    simp only [List.map_cons, List.nodup_cons] at h
    by_cases hk : k₀ = k
    · subst hk
      simpa [removeKV] using lookupKV_eq_none_of_not_mem_keys rest k₀ h.1
    · simp [removeKV, hk, lookupKV, ih h.2]

end Twilight

namespace Twilight

/-! ## Frame lemmas for `cache_user` -/

theorem cache_user_keeps_guild_channels (c : Cache) (u : User) (gid : Option Nat) :
    ((cache_user c u gid).1).guild_channels = c.guild_channels := by
  unfold cache_user
  cases lookupKV c.users u.id with
  | none => cases gid <;> simp
  | some p =>
    obtain ⟨u₀, s⟩ := p
    by_cases hu : u₀ = u <;> cases gid <;> simp [hu]

theorem cache_user_keeps_guild_emojis (c : Cache) (u : User) (gid : Option Nat) :
    ((cache_user c u gid).1).guild_emojis = c.guild_emojis := by
  unfold cache_user
  cases lookupKV c.users u.id with
  | none => cases gid <;> simp
  | some p =>
    obtain ⟨u₀, s⟩ := p
    by_cases hu : u₀ = u <;> cases gid <;> simp [hu]

theorem cache_user_keeps_guild_members (c : Cache) (u : User) (gid : Option Nat) :
    ((cache_user c u gid).1).guild_members = c.guild_members := by
  unfold cache_user
  cases lookupKV c.users u.id with
  | none => cases gid <;> simp
  | some p =>
    obtain ⟨u₀, s⟩ := p
    by_cases hu : u₀ = u <;> cases gid <;> simp [hu]

theorem cache_user_keeps_guild_roles (c : Cache) (u : User) (gid : Option Nat) :
    ((cache_user c u gid).1).guild_roles = c.guild_roles := by
  unfold cache_user
  cases lookupKV c.users u.id with
  | none => cases gid <;> simp
  | some p =>
    obtain ⟨u₀, s⟩ := p
    by_cases hu : u₀ = u <;> cases gid <;> simp [hu]

theorem cache_user_keeps_emojis (c : Cache) (u : User) (gid : Option Nat) :
    ((cache_user c u gid).1).emojis = c.emojis := by
  unfold cache_user
  cases lookupKV c.users u.id with
  | none => cases gid <;> simp
  | some p =>
    obtain ⟨u₀, s⟩ := p
    by_cases hu : u₀ = u <;> cases gid <;> simp [hu]

end Twilight

namespace Twilight

/-! ## Claim C10: stale emoji ownership in the old guild's secondary set -/

/-- C10: `cache_emoji` never removes an emoji id from the secondary set of
a guild that previously owned it.  If the emoji is cached with ownership
tag `a` and is re-cached with different field values under guild `b ≠ a`,
then afterwards the primary entry's ownership tag is `b` and the id sits
in `b`'s `guild_emojis` set, while `a`'s `guild_emojis` set is completely
unchanged — so it still contains an id whose current owner is `b`. -/
theorem cache_emoji_stale_old_owner_set
    (c : Cache) (a b : Nat) (e : Emoji) (item : GuildItem CachedEmoji)
    (hab : a ≠ b)
    (hcur : lookupKV c.emojis e.id = some item)
    (hown : item.guild_id = a)
    (hne : item.data.eqEmoji e = false) :
    (cache_emoji c b e).guildEmojis a = c.guildEmojis a ∧
    (cache_emoji c b e).emojiOwner e.id = some b ∧
    e.id ∈ ((cache_emoji c b e).guildEmojis b).getD [] := by
  have hstep : cache_emoji c b e = cache_emoji_store c b e := by
    unfold cache_emoji
    rw [hcur]
    simp [hne]
  rw [hstep]
  unfold cache_emoji_store
  rcases hu : e.user with _ | u
  · refine ⟨?_, ?_, ?_⟩
    · show lookupKV (entryInsert _ b e.id) a = _
      rw [lookupKV_entryInsert_ne _ _ _ _ hab]
      rfl
    · show (lookupKV (insertKV c.emojis e.id _) e.id).map _ = _
      rw [lookupKV_insertKV_self]
      rfl
    · show e.id ∈ (lookupKV (entryInsert _ b e.id) b).getD []
      rw [lookupKV_entryInsert_self]
      exact mem_setInsert_self _ _
  · refine ⟨?_, ?_, ?_⟩
    · show lookupKV (entryInsert _ b e.id) a = _
      rw [lookupKV_entryInsert_ne _ _ _ _ hab]
      show lookupKV ((cache_user c u (some b)).1).guild_emojis a = _
      rw [cache_user_keeps_guild_emojis]
      rfl
    · show (lookupKV (insertKV ((cache_user c u (some b)).1).emojis e.id _) e.id).map _ = _
      rw [lookupKV_insertKV_self]
      rfl
    · show e.id ∈ (lookupKV (entryInsert _ b e.id) b).getD []
      rw [lookupKV_entryInsert_self]
      exact mem_setInsert_self _ _

/-- Witness for C10: cache emoji 77 under guild 1, re-cache the changed
payload under guild 2; guild 1's secondary set still contains 77, whose
owner is now guild 2. -/
theorem cache_emoji_stale_old_owner_set_witness :
    (cache_emoji (cache_emoji (emptyCache 100) 1 emojiA) 2 emojiB).guildEmojis 1 =
        (cache_emoji (emptyCache 100) 1 emojiA).guildEmojis 1 ∧
    (cache_emoji (cache_emoji (emptyCache 100) 1 emojiA) 2 emojiB).emojiOwner 77 = some 2 ∧
    77 ∈ ((cache_emoji (cache_emoji (emptyCache 100) 1 emojiA) 2 emojiB).guildEmojis 2).getD [] :=
  cache_emoji_stale_old_owner_set (cache_emoji (emptyCache 100) 1 emojiA) 1 2 emojiB
    ⟨{ id := 77, animated := false, name := "blob", require_colons := true,
       roles := [], available := true }, 1⟩
    (by decide) (by decide) (by decide) (by decide)

/-! ## Claim C8: private-channel key and zero-recipient contract -/

/-- C8: `cache_private_channel` stores a private channel under its first
recipient's user id; with at least one recipient it succeeds without
panicking and the channel is subsequently retrievable under that key
(entries of other users untouched); with zero recipients it panics via
`expect` before any index has been touched, leaving the state exactly as
it was. -/
theorem cache_private_channel_spec (c : Cache) (pc : PrivateChannel) :
    (∀ r rest, pc.recipients = r :: rest →
      (cache_private_channel c pc).isOk = true ∧
      ((cache_private_channel c pc).stateOf).privateChannel r.id = some pc ∧
      ∀ uid, uid ≠ r.id →
        ((cache_private_channel c pc).stateOf).privateChannel uid = c.privateChannel uid) ∧
    (pc.recipients = [] →
      cache_private_channel c pc = .panicked c "no recipients for private channel") := by
  constructor
  · intro r rest hr
    unfold cache_private_channel
    rw [hr]
    simp only [List.head?]
    rcases hlk : lookupKV c.channels_private r.id with _ | existing
    · have hcontains : containsKV c.channels_private r.id = false := by
        simp [containsKV, hlk]
      simp only [hcontains, Bool.false_eq_true, if_false, hlk]
      refine ⟨rfl, ?_, ?_⟩
      · show (lookupKV (insertKV c.channels_private r.id pc) r.id) = some pc
        exact lookupKV_insertKV_self ..
      · intro uid huid
        show lookupKV (insertKV c.channels_private r.id pc) uid = lookupKV c.channels_private uid
        exact lookupKV_insertKV_ne _ _ _ _ huid
    · have hcontains : containsKV c.channels_private r.id = true := by
        simp [containsKV, hlk]
      simp only [hcontains, if_true, hlk]
      by_cases heq : existing = pc
      · simp only [heq, if_pos rfl]
        refine ⟨rfl, ?_, fun uid _ => rfl⟩
        show lookupKV c.channels_private r.id = some pc
        rw [hlk, heq]
      · simp only [if_neg heq]
        refine ⟨rfl, ?_, ?_⟩
        · show (lookupKV (insertKV c.channels_private r.id pc) r.id) = some pc
          exact lookupKV_insertKV_self ..
        · intro uid huid
          show lookupKV (insertKV c.channels_private r.id pc) uid = lookupKV c.channels_private uid
          exact lookupKV_insertKV_ne _ _ _ _ huid
  · intro hnil
    unfold cache_private_channel
    rw [hnil]
    rfl

/-- Witness for C8: on the one-recipient channel the operation succeeds
and stores the channel under user id 9; the zero-recipient channel
panics with the empty cache unchanged. -/
theorem cache_private_channel_spec_witness :
    ((cache_private_channel (emptyCache 100) privChanW).isOk = true ∧
      ((cache_private_channel (emptyCache 100) privChanW).stateOf).privateChannel 9 =
        some privChanW) ∧
    cache_private_channel (emptyCache 100) { id := 6, recipients := [], last_message_id := none } =
      .panicked (emptyCache 100) "no recipients for private channel" := by
  constructor
  · have h := (cache_private_channel_spec (emptyCache 100) privChanW).1
      { id := 9, name := "r", discriminator := "0001", bot := false } [] rfl
    exact ⟨h.1, h.2.1⟩
  · exact (cache_private_channel_spec (emptyCache 100)
      { id := 6, recipients := [], last_message_id := none }).2 rfl

end Twilight

namespace Twilight

/-! ## Claims C1 and C2: user reference counting -/

/-- Counterexample to C1 as stated: `cache_user(u, None)` on a cache not
containing `u` does NOT make `user(u)` return the cached user — the code
only inserts a fresh entry when a guild id is given, so the lookup still
yields `none` (while the user counter was nevertheless incremented). -/
theorem cache_user_none_no_insert_counterexample :
    ((cache_user (emptyCache 100) userA none).1).user 42 = none ∧
    ((cache_user (emptyCache 100) userA none).1).metrics.users = 1 := by
  constructor <;> rfl

/-- C1 (amended): a user entry only ever exists with a non-empty
reverse-reference guild set.  `cache_user` with `guild_id = None` never
modifies the user map at all (so `user(u)` stays `none` on a miss);
`cache_user` with a guild id always leaves the entry with a non-empty
guild set; and removing the user's last tracked guild via
`remove_user_from_guild` removes the entry from the primary map
entirely. -/
theorem user_refcount_amended :
    (∀ c (u : User), ((cache_user c u none).1).users = c.users) ∧
    (∀ c (u : User) (g : Nat),
      (((cache_user c u (some g)).1).trackedGuilds u.id).getD [] ≠ []) ∧
    (∀ c (uid gid : Nat) (u₀ : User) (s : List Nat),
      (c.users.map Prod.fst).Nodup →
      lookupKV c.users uid = some (u₀, s) →
      s.erase gid = [] →
      (remove_user_from_guild c uid gid).user uid = none) := by
  refine ⟨?_, ?_, ?_⟩
  · intro c u
    unfold cache_user
    cases lookupKV c.users u.id with
    | none => simp
    | some p =>
      obtain ⟨u₀, s⟩ := p
      by_cases hu : u₀ = u <;> simp [hu]
  · intro c u g
    unfold cache_user
    cases lookupKV c.users u.id with
    | none =>
      show ((lookupKV (insertKV _ u.id (u, [g])) u.id).map _).getD [] ≠ []
      rw [lookupKV_insertKV_self]
      simp
    | some p =>
      obtain ⟨u₀, s⟩ := p
      by_cases hu : u₀ = u
      · subst hu
        have hlook := lookupKV_insertKV_self c.users u₀.id (u₀, setInsert s g)
        simp [Cache.trackedGuilds, hlook, setInsert_ne_nil s g]
      · have hlook := lookupKV_insertKV_self c.users u.id (u, [g])
        simp [Cache.trackedGuilds, hu, hlook]
  · intro c uid gid u₀ s hnd h hs
    unfold remove_user_from_guild
    rw [h]
    simp only [hs, if_pos rfl]
    show (lookupKV (removeKV c.users uid) uid).map _ = none
    rw [lookupKV_removeKV_self_of_nodup c.users uid hnd]
    rfl

/-- Witness for C1 (amended): a None-context call leaves the user map
untouched; a guild-context call leaves a non-empty tracked set; removing
the last guild of user 42 (tracked only in guild 1) removes the entry. -/
theorem user_refcount_amended_witness :
    ((cache_user cacheU1 userA2 none).1).users = cacheU1.users ∧
    (((cache_user (emptyCache 100) userA (some 5)).1).trackedGuilds 42).getD [] ≠ [] ∧
    (remove_user_from_guild cacheU1 42 1).user 42 = none :=
  ⟨user_refcount_amended.1 cacheU1 userA2,
   user_refcount_amended.2.1 (emptyCache 100) userA 5,
   user_refcount_amended.2.2 cacheU1 42 1 userA [1] (by decide) (by decide) (by decide)⟩

/-- Counterexample to C2 as stated: caching user 42 in guild 1 and then
caching a field-wise different user 42 with guild 3 does NOT leave the
tracked set `{1, 3}` — the replacement path builds a fresh set holding
only guild 3, discarding the previous reverse-references. -/
theorem cache_user_changed_discards_guilds_counterexample :
    ((cache_user cacheU1 userA2 (some 3)).1).trackedGuilds 42 = some [3] ∧
    1 ∉ (((cache_user cacheU1 userA2 (some 3)).1).trackedGuilds 42).getD [] := by
  constructor
  · rfl
  · decide

/-- C2 (amended): for a user already present with tracked set `S`,
`cache_user(u', Some(g))` always leaves the incoming value stored, and
the tracked set becomes `S ∪ {g}` when `u'` is field-wise equal to the
stored user but exactly `{g}` (the prior set is discarded) when it
differs. -/
theorem cache_user_existing_guild_set (c : Cache) (u : User) (g : Nat)
    (u₀ : User) (s : List Nat)
    (h : lookupKV c.users u.id = some (u₀, s)) :
    ((cache_user c u (some g)).1).user u.id = some u ∧
    ((cache_user c u (some g)).1).trackedGuilds u.id =
      some (if u₀ = u then setInsert s g else [g]) := by
  unfold cache_user
  rw [h]
  by_cases hu : u₀ = u
  · simp only [hu, if_pos rfl]
    constructor
    · show (lookupKV (insertKV _ u.id (u, setInsert s g)) u.id).map _ = some u
      rw [lookupKV_insertKV_self]
      rfl
    · show (lookupKV (insertKV _ u.id (u, setInsert s g)) u.id).map _ = _
      rw [lookupKV_insertKV_self]
      rfl
  · simp only [if_neg hu]
    constructor
    · show (lookupKV (insertKV _ u.id (u, [g])) u.id).map _ = some u
      rw [lookupKV_insertKV_self]
      rfl
    · show (lookupKV (insertKV _ u.id (u, [g])) u.id).map _ = _
      rw [lookupKV_insertKV_self]
      rfl

/-- Witness for C2 (amended): the field-wise-equal re-cache of user 42
with guild 3 yields tracked set `[1, 3]`; the changed re-cache yields
`[3]`. -/
theorem cache_user_existing_guild_set_witness :
    (((cache_user cacheU1 userA (some 3)).1).user 42 = some userA ∧
      ((cache_user cacheU1 userA (some 3)).1).trackedGuilds 42 =
        some (if userA = userA then setInsert [1] 3 else [3])) ∧
    (((cache_user cacheU1 userA2 (some 3)).1).user 42 = some userA2 ∧
      ((cache_user cacheU1 userA2 (some 3)).1).trackedGuilds 42 =
        some (if userA = userA2 then setInsert [1] 3 else [3])) :=
  ⟨cache_user_existing_guild_set cacheU1 userA 3 userA [1] (by decide),
   cache_user_existing_guild_set cacheU1 userA2 3 userA [1] (by decide)⟩

end Twilight

namespace Twilight

/-! ## Claim C3: `clear()` versus a fresh cache -/

/-- C3 failing input: `clear()` on a cache holding one member is NOT equal
to a fresh empty cache — `clear` (`src/lib.rs` lines 403-416) only resets
the guild-channel, current-user, emoji, guild, role and user stores, so
the member primary map, the guild-member secondary set and the metrics
counters survive. -/
theorem clear_leaves_members_behind :
    Cache.clear cacheM ≠ emptyCache 100 ∧
    lookupKV (Cache.clear cacheM).members (1, 2) =
      some { user_id := 2, guild_id := 1, nick := none, roles := [],
             user := { id := 2, name := "bob", discriminator := "0002", bot := false } } ∧
    (Cache.clear cacheM).guildMembers 1 = some [2] ∧
    (Cache.clear cacheM).metrics.members = 1 ∧
    (Cache.clear cacheM).user 2 = none := by
  refine ⟨?_, by decide, by decide, by decide, by decide⟩
  decide

/-! ## Claim C4: applying the same payload twice -/

/-- C4 failing input: re-applying the identical guild payload is NOT a
no-op.  The second `cache_guild` first clears the guild's secondary sets
and decrements the counters; the per-entity dedup then returns early on
the equal member before re-inserting its id, so the guild-member
secondary set stays empty and the channel/member counters stay
decremented, even though the primary maps are unchanged. -/
theorem cache_guild_twice_not_noop :
    cacheG2 ≠ cacheG1 ∧
    cacheG1.guildMembers 1 = some [2] ∧
    cacheG2.guildMembers 1 = some [] ∧
    cacheG1.metrics.channels_guild = 1 ∧
    cacheG2.metrics.channels_guild = 0 ∧
    cacheG1.metrics.members = 1 ∧
    cacheG2.metrics.members = 0 ∧
    cacheG2.members = cacheG1.members ∧
    cacheG2.channels_guild = cacheG1.channels_guild := by
  refine ⟨?_, by decide, by decide, by decide, by decide, by decide, by decide, ?_, ?_⟩ <;> decide

end Twilight

namespace Twilight

/-! ## Claim C9: bounded newest-first message ring -/

theorem pushRing_take (K : Nat) (xs : List CachedMessage) (m : CachedMessage) :
    pushRing K (xs.take K) m = (m :: xs).take K := by
  unfold pushRing
  by_cases h : K ≤ xs.length
  · have hlen : (xs.take K).length = K := by
      rw [List.length_take]
      omega
    have hcond : K < (m :: xs.take K).length := by
      simp [hlen]
    rw [if_pos hcond]
    have h1 : m :: xs.take K = (m :: xs).take (K + 1) := by
      rw [List.take_succ_cons]
    have hmin : min (K + 1) (m :: xs).length = K + 1 := by
      simp only [List.length_cons]
      omega
    rw [h1, List.dropLast_eq_take, List.length_take, hmin, List.take_take]
    congr 1
    omega
  · push_neg at h
    have hx : xs.take K = xs := List.take_of_length_le (by omega)
    rw [hx, if_neg (by simp only [List.length_cons]; omega)]
    exact (List.take_of_length_le (by simp only [List.length_cons]; omega)).symm

theorem foldl_pushRing (K : Nat) (l : List CachedMessage) : ∀ (s : List CachedMessage),
    l.foldl (pushRing K) (s.reverse.take K) = ((s ++ l).reverse).take K := by
  induction l with
  | nil => intro s; simp
  | cons m rest ih =>
    intro s
    rw [List.foldl_cons, pushRing_take]
    have h1 : m :: s.reverse = (s ++ [m]).reverse := by simp
    rw [h1, ih (s ++ [m])]
    have h2 : (s ++ [m]) ++ rest = s ++ (m :: rest) := by simp
    rw [h2]

theorem foldl_pushRing_nil (K : Nat) (l : List CachedMessage) :
    l.foldl (pushRing K) [] = (l.reverse).take K := by
  simpa using foldl_pushRing K l []

theorem foldl_cache_message_lookup (ch : Nat) (msgs : List CachedMessage) : ∀ (c : Cache),
    (∀ m ∈ msgs, m.channel_id = ch) → msgs ≠ [] →
    lookupKV ((msgs.foldl cache_message c).messages) ch =
      some (msgs.foldl (pushRing c.messageCacheSize) ((lookupKV c.messages ch).getD [])) := by
  induction msgs with
  | nil => intro c _ hne; exact absurd rfl hne
  | cons m rest ih =>
    intro c hch _
    have hm : m.channel_id = ch := hch m (List.mem_cons_self ..)
    have h2 : lookupKV (cache_message c m).messages ch =
        some (pushRing c.messageCacheSize ((lookupKV c.messages ch).getD []) m) := by
      unfold cache_message
      rw [hm]
      exact lookupKV_insertKV_self ..
    rw [List.foldl_cons]
    by_cases hrest : rest = []
    · subst hrest
      simpa using h2
    · have hch' : ∀ x ∈ rest, x.channel_id = ch := fun x hx => hch x (List.mem_cons_of_mem _ hx)
      rw [ih (cache_message c m) hch' hrest]
      have h1 : (cache_message c m).messageCacheSize = c.messageCacheSize := rfl
      rw [h1, h2, List.foldl_cons]
      rfl

/-- C9: per-channel messages form a bounded newest-first ring.  Pushing
`K + 1` messages (`m₀` then `rest`, `rest.length = K`) into a channel with
no cached messages on a cache configured for capacity `K` leaves exactly
the `K` most recent messages newest-first (`rest.reverse`),
`last_message` returns the most recently pushed id (front of the deque)
and `first_message` returns the oldest surviving id (back of the deque,
the second message pushed). -/
theorem message_ring_buffer (K : Nat) (c : Cache) (ch : Nat)
    (hsize : c.messageCacheSize = K)
    (hfresh : (lookupKV c.messages ch).getD [] = [])
    (m₀ : CachedMessage) (rest : List CachedMessage)
    (hlen : rest.length = K)
    (hch : ∀ m ∈ m₀ :: rest, m.channel_id = ch) :
    lookupKV (((m₀ :: rest).foldl cache_message c).messages) ch = some rest.reverse ∧
    ((m₀ :: rest).foldl cache_message c).lastMessage ch = rest.getLast?.map (·.id) ∧
    ((m₀ :: rest).foldl cache_message c).firstMessage ch = rest.head?.map (·.id) := by
  have hdq : lookupKV (((m₀ :: rest).foldl cache_message c).messages) ch = some rest.reverse := by
    rw [foldl_cache_message_lookup ch (m₀ :: rest) c hch (by simp)]
    rw [hsize, hfresh, foldl_pushRing_nil, List.reverse_cons]
    have hrl : rest.reverse.length = K := by simp [hlen]
    rw [← hrl, List.take_left]
  refine ⟨hdq, ?_, ?_⟩
  · unfold Cache.lastMessage
    rw [hdq]
    simp [List.head?_reverse]
  · unfold Cache.firstMessage
    rw [hdq]
    simp [List.getLast?_reverse]

/-- Witness for C9: capacity 2, three pushes; messages 103 and 102
survive, `last_message = 103`, `first_message = 102`. -/
theorem message_ring_buffer_witness :
    lookupKV (([msgW 101, msgW 102, msgW 103].foldl cache_message (emptyCache 2)).messages) 7 =
      some [msgW 103, msgW 102] ∧
    ([msgW 101, msgW 102, msgW 103].foldl cache_message (emptyCache 2)).lastMessage 7 = some 103 ∧
    ([msgW 101, msgW 102, msgW 103].foldl cache_message (emptyCache 2)).firstMessage 7 = some 102 := by
  simpa using
    message_ring_buffer 2 (emptyCache 2) 7 rfl rfl (msgW 101) [msgW 102, msgW 103] rfl
      (by decide)

end Twilight

namespace Twilight

/-! ## Frame lemmas for the guild-rebuild pipeline (claim C5) -/

theorem clearGuildSets_eq (c : Cache) (g : Nat) :
    clearGuildSets c g =
      { c with
        guild_channels := insertKV c.guild_channels g [],
        guild_emojis := insertKV c.guild_emojis g [],
        guild_members := insertKV c.guild_members g [],
        guild_roles := insertKV c.guild_roles g [],
        metrics := { c.metrics with
          channels_guild :=
            c.metrics.channels_guild - ((lookupKV c.guild_channels g).getD []).length,
          emojis := c.metrics.emojis - ((lookupKV c.guild_emojis g).getD []).length,
          members := c.metrics.members - ((lookupKV c.guild_members g).getD []).length,
          roles := c.metrics.roles - ((lookupKV c.guild_roles g).getD []).length } } := by
  unfold clearGuildSets
  cases h1 : lookupKV c.guild_channels g <;> cases h2 : lookupKV c.guild_emojis g <;>
    cases h3 : lookupKV c.guild_members g <;> cases h4 : lookupKV c.guild_roles g <;>
      simp [h1, h2, h3, h4]

theorem cache_guild_channel_guild_channels (c : Cache) (g : Nat) (ch : GuildChannel) :
    (cache_guild_channel c g ch).guild_channels = entryInsert c.guild_channels g ch.id := by
  unfold cache_guild_channel
  dsimp only
  split
  · split <;> rfl
  · rfl

theorem cache_guild_channel_keeps (c : Cache) (g : Nat) (ch : GuildChannel) :
    (cache_guild_channel c g ch).guild_emojis = c.guild_emojis ∧
    (cache_guild_channel c g ch).guild_members = c.guild_members ∧
    (cache_guild_channel c g ch).guild_roles = c.guild_roles := by
  refine ⟨?_, ?_, ?_⟩ <;>
    (unfold cache_guild_channel; dsimp only; split) <;>
    first
      | rfl
      | (split <;> rfl)

theorem cache_emoji_store_keeps (c : Cache) (g : Nat) (e : Emoji) :
    (cache_emoji_store c g e).guild_channels = c.guild_channels ∧
    (cache_emoji_store c g e).guild_members = c.guild_members ∧
    (cache_emoji_store c g e).guild_roles = c.guild_roles := by
  refine ⟨?_, ?_, ?_⟩ <;>
    (unfold cache_emoji_store; rcases hu : e.user with _ | u) <;>
    simp [hu, cache_user_keeps_guild_channels, cache_user_keeps_guild_members,
      cache_user_keeps_guild_roles]

theorem cache_emoji_keeps (c : Cache) (g : Nat) (e : Emoji) :
    (cache_emoji c g e).guild_channels = c.guild_channels ∧
    (cache_emoji c g e).guild_members = c.guild_members ∧
    (cache_emoji c g e).guild_roles = c.guild_roles := by
  unfold cache_emoji
  rcases hl : lookupKV c.emojis e.id with _ | item
  · exact cache_emoji_store_keeps _ g e
  · dsimp only
    split
    · exact ⟨rfl, rfl, rfl⟩
    · exact cache_emoji_store_keeps c g e

theorem cache_emoji_store_lookup_emojis_ne (c : Cache) (g g' : Nat) (e : Emoji) (h : g' ≠ g) :
    lookupKV (cache_emoji_store c g e).guild_emojis g' = lookupKV c.guild_emojis g' := by
  unfold cache_emoji_store
  rcases hu : e.user with _ | u
  · dsimp only
    rw [lookupKV_entryInsert_ne _ _ _ _ h]
  · dsimp only
    rw [lookupKV_entryInsert_ne _ _ _ _ h]
    show lookupKV ((cache_user c u (some g)).1).guild_emojis g' = _
    rw [cache_user_keeps_guild_emojis]

theorem cache_emoji_lookup_emojis_ne (c : Cache) (g g' : Nat) (e : Emoji) (h : g' ≠ g) :
    lookupKV (cache_emoji c g e).guild_emojis g' = lookupKV c.guild_emojis g' := by
  unfold cache_emoji
  rcases hl : lookupKV c.emojis e.id with _ | item
  · exact cache_emoji_store_lookup_emojis_ne _ g g' e h
  · dsimp only
    split
    · rfl
    · exact cache_emoji_store_lookup_emojis_ne c g g' e h

theorem cache_member_store_keeps (c : Cache) (g : Nat) (m : Member) :
    (cache_member_store c g m).guild_channels = c.guild_channels ∧
    (cache_member_store c g m).guild_emojis = c.guild_emojis ∧
    (cache_member_store c g m).guild_roles = c.guild_roles := by
  refine ⟨?_, ?_, ?_⟩ <;>
    (unfold cache_member_store; dsimp only) <;>
    simp [cache_user_keeps_guild_channels, cache_user_keeps_guild_emojis,
      cache_user_keeps_guild_roles]

theorem cache_member_keeps (c : Cache) (g : Nat) (m : Member) :
    (cache_member c g m).guild_channels = c.guild_channels ∧
    (cache_member c g m).guild_emojis = c.guild_emojis ∧
    (cache_member c g m).guild_roles = c.guild_roles := by
  unfold cache_member
  rcases hl : lookupKV c.members (g, m.user.id) with _ | cm
  · exact cache_member_store_keeps _ g m
  · dsimp only
    split
    · exact ⟨rfl, rfl, rfl⟩
    · exact cache_member_store_keeps c g m

theorem cache_member_store_lookup_members_ne (c : Cache) (g g' : Nat) (m : Member)
    (h : g' ≠ g) :
    lookupKV (cache_member_store c g m).guild_members g' = lookupKV c.guild_members g' := by
  unfold cache_member_store
  dsimp only
  rw [lookupKV_entryInsert_ne _ _ _ _ h]
  show lookupKV ((cache_user c m.user (some g)).1).guild_members g' = _
  rw [cache_user_keeps_guild_members]

theorem cache_member_lookup_members_ne (c : Cache) (g g' : Nat) (m : Member) (h : g' ≠ g) :
    lookupKV (cache_member c g m).guild_members g' = lookupKV c.guild_members g' := by
  unfold cache_member
  rcases hl : lookupKV c.members (g, m.user.id) with _ | cm
  · exact cache_member_store_lookup_members_ne _ g g' m h
  · dsimp only
    split
    · rfl
    · exact cache_member_store_lookup_members_ne c g g' m h

theorem cache_role_keeps (c : Cache) (g : Nat) (r : Role) :
    (cache_role c g r).guild_channels = c.guild_channels ∧
    (cache_role c g r).guild_emojis = c.guild_emojis ∧
    (cache_role c g r).guild_members = c.guild_members := by
  refine ⟨?_, ?_, ?_⟩ <;>
    (unfold cache_role; dsimp only; split) <;>
    first
      | rfl
      | (split <;> rfl)

theorem cache_role_guild_roles (c : Cache) (g : Nat) (r : Role) :
    (cache_role c g r).guild_roles = entryInsert c.guild_roles g r.id := by
  unfold cache_role
  dsimp only
  split
  · split <;> rfl
  · rfl

end Twilight

namespace Twilight

theorem cache_guild_channels_keeps (g : Nat) (chans : List GuildChannel) : ∀ c : Cache,
    (cache_guild_channels c g chans).guild_emojis = c.guild_emojis ∧
    (cache_guild_channels c g chans).guild_members = c.guild_members ∧
    (cache_guild_channels c g chans).guild_roles = c.guild_roles := by
  induction chans with
  | nil => intro c; exact ⟨rfl, rfl, rfl⟩
  | cons ch rest ih =>
    intro c
    have h1 := cache_guild_channel_keeps c g ch
    have h2 := ih (cache_guild_channel c g ch)
    unfold cache_guild_channels at h2 ⊢
    rw [List.foldl_cons]
    exact ⟨h2.1.trans h1.1, h2.2.1.trans h1.2.1, h2.2.2.trans h1.2.2⟩

theorem cache_emojis_keeps (g : Nat) (es : List Emoji) : ∀ c : Cache,
    (cache_emojis c g es).guild_channels = c.guild_channels ∧
    (cache_emojis c g es).guild_members = c.guild_members ∧
    (cache_emojis c g es).guild_roles = c.guild_roles := by
  induction es with
  | nil => intro c; exact ⟨rfl, rfl, rfl⟩
  | cons e rest ih =>
    intro c
    have h1 := cache_emoji_keeps c g e
    have h2 := ih (cache_emoji c g e)
    unfold cache_emojis at h2 ⊢
    rw [List.foldl_cons]
    exact ⟨h2.1.trans h1.1, h2.2.1.trans h1.2.1, h2.2.2.trans h1.2.2⟩

theorem cache_members_keeps (g : Nat) (ms : List Member) : ∀ c : Cache,
    (cache_members c g ms).guild_channels = c.guild_channels ∧
    (cache_members c g ms).guild_emojis = c.guild_emojis ∧
    (cache_members c g ms).guild_roles = c.guild_roles := by
  induction ms with
  | nil => intro c; exact ⟨rfl, rfl, rfl⟩
  | cons m rest ih =>
    intro c
    have h1 := cache_member_keeps c g m
    have h2 := ih (cache_member c g m)
    unfold cache_members at h2 ⊢
    rw [List.foldl_cons]
    exact ⟨h2.1.trans h1.1, h2.2.1.trans h1.2.1, h2.2.2.trans h1.2.2⟩

theorem cache_roles_keeps (g : Nat) (rs : List Role) : ∀ c : Cache,
    (cache_roles c g rs).guild_channels = c.guild_channels ∧
    (cache_roles c g rs).guild_emojis = c.guild_emojis ∧
    (cache_roles c g rs).guild_members = c.guild_members := by
  induction rs with
  | nil => intro c; exact ⟨rfl, rfl, rfl⟩
  | cons r rest ih =>
    intro c
    have h1 := cache_role_keeps c g r
    have h2 := ih (cache_role c g r)
    unfold cache_roles at h2 ⊢
    rw [List.foldl_cons]
    exact ⟨h2.1.trans h1.1, h2.2.1.trans h1.2.1, h2.2.2.trans h1.2.2⟩

theorem cache_guild_channels_lookup_ne (g g' : Nat) (h : g' ≠ g) (chans : List GuildChannel) :
    ∀ c : Cache,
    lookupKV (cache_guild_channels c g chans).guild_channels g' =
      lookupKV c.guild_channels g' := by
  induction chans with
  | nil => intro c; rfl
  | cons ch rest ih =>
    intro c
    unfold cache_guild_channels
    rw [List.foldl_cons]
    have := ih (cache_guild_channel c g ch)
    unfold cache_guild_channels at this
    rw [this, cache_guild_channel_guild_channels, lookupKV_entryInsert_ne _ _ _ _ h]

theorem cache_emojis_lookup_ne (g g' : Nat) (h : g' ≠ g) (es : List Emoji) : ∀ c : Cache,
    lookupKV (cache_emojis c g es).guild_emojis g' = lookupKV c.guild_emojis g' := by
  induction es with
  | nil => intro c; rfl
  | cons e rest ih =>
    intro c
    unfold cache_emojis
    rw [List.foldl_cons]
    have := ih (cache_emoji c g e)
    unfold cache_emojis at this
    rw [this, cache_emoji_lookup_emojis_ne c g g' e h]

theorem cache_members_lookup_ne (g g' : Nat) (h : g' ≠ g) (ms : List Member) : ∀ c : Cache,
    lookupKV (cache_members c g ms).guild_members g' = lookupKV c.guild_members g' := by
  induction ms with
  | nil => intro c; rfl
  | cons m rest ih =>
    intro c
    unfold cache_members
    rw [List.foldl_cons]
    have := ih (cache_member c g m)
    unfold cache_members at this
    rw [this, cache_member_lookup_members_ne c g g' m h]

theorem cache_roles_lookup_ne (g g' : Nat) (h : g' ≠ g) (rs : List Role) : ∀ c : Cache,
    lookupKV (cache_roles c g rs).guild_roles g' = lookupKV c.guild_roles g' := by
  induction rs with
  | nil => intro c; rfl
  | cons r rest ih =>
    intro c
    unfold cache_roles
    rw [List.foldl_cons]
    have := ih (cache_role c g r)
    unfold cache_roles at this
    rw [this, cache_role_guild_roles, lookupKV_entryInsert_ne _ _ _ _ h]

theorem cache_guild_channels_set (g : Nat) (chans : List GuildChannel) :
    ∀ (c : Cache) (s : List Nat),
    lookupKV c.guild_channels g = some s →
    lookupKV (cache_guild_channels c g chans).guild_channels g =
      some (chans.foldl (fun s ch => setInsert s ch.id) s) := by
  induction chans with
  | nil => intro c s h; exact h
  | cons ch rest ih =>
    intro c s h
    unfold cache_guild_channels
    rw [List.foldl_cons, List.foldl_cons]
    have hstep : lookupKV (cache_guild_channel c g ch).guild_channels g =
        some (setInsert s ch.id) := by
      rw [cache_guild_channel_guild_channels, lookupKV_entryInsert_self, h]
      rfl
    have := ih (cache_guild_channel c g ch) (setInsert s ch.id) hstep
    unfold cache_guild_channels at this
    exact this

theorem mem_foldl_setInsert (chans : List GuildChannel) : ∀ (s : List Nat) (x : Nat),
    x ∈ chans.foldl (fun s ch => setInsert s ch.id) s ↔ x ∈ s ∨ x ∈ chans.map (·.id) := by
  induction chans with
  | nil => simp
  | cons ch rest ih =>
    intro s x
    rw [List.foldl_cons, ih, mem_setInsert_iff]
    simp only [List.map_cons, List.mem_cons]
    tauto

end Twilight

namespace Twilight

/-! ## Claim C5: clear-then-rebuild of a full guild snapshot -/

/-- C5: `cache_guild` first clears the guild's four secondary sets,
decrementing each counter by the set's prior size (the `clearGuildSets`
prefix of `cache_guild`), before bulk-inserting the payload's entities.
Consequently any channel id not present in the new payload's channel list
is absent from the guild's channel secondary set after `cache_guild`
returns, while the secondary sets of every other guild are unchanged. -/
theorem cache_guild_full_snapshot_rebuild (c : Cache) (G : Guild) :
    ((clearGuildSets c G.id).guildChannels G.id = some [] ∧
     (clearGuildSets c G.id).guildEmojis G.id = some [] ∧
     (clearGuildSets c G.id).guildMembers G.id = some [] ∧
     (clearGuildSets c G.id).guildRoles G.id = some [] ∧
     (clearGuildSets c G.id).metrics.channels_guild =
       c.metrics.channels_guild - ((c.guildChannels G.id).getD []).length ∧
     (clearGuildSets c G.id).metrics.emojis =
       c.metrics.emojis - ((c.guildEmojis G.id).getD []).length ∧
     (clearGuildSets c G.id).metrics.members =
       c.metrics.members - ((c.guildMembers G.id).getD []).length ∧
     (clearGuildSets c G.id).metrics.roles =
       c.metrics.roles - ((c.guildRoles G.id).getD []).length) ∧
    (∀ x, x ∉ G.channels.map (·.id) →
      x ∉ ((cache_guild c G).guildChannels G.id).getD []) ∧
    (∀ g', g' ≠ G.id →
      (cache_guild c G).guildChannels g' = c.guildChannels g' ∧
      (cache_guild c G).guildEmojis g' = c.guildEmojis g' ∧
      (cache_guild c G).guildMembers g' = c.guildMembers g' ∧
      (cache_guild c G).guildRoles g' = c.guildRoles g') := by
  have hclear := clearGuildSets_eq c G.id
  have htail :
      (cache_guild c G).guild_channels =
        (cache_roles (cache_members (cache_emojis (cache_guild_channels
          (clearGuildSets c G.id) G.id G.channels) G.id G.emojis) G.id G.members)
          G.id G.roles).guild_channels ∧
      (cache_guild c G).guild_emojis =
        (cache_roles (cache_members (cache_emojis (cache_guild_channels
          (clearGuildSets c G.id) G.id G.channels) G.id G.emojis) G.id G.members)
          G.id G.roles).guild_emojis ∧
      (cache_guild c G).guild_members =
        (cache_roles (cache_members (cache_emojis (cache_guild_channels
          (clearGuildSets c G.id) G.id G.channels) G.id G.emojis) G.id G.members)
          G.id G.roles).guild_members ∧
      (cache_guild c G).guild_roles =
        (cache_roles (cache_members (cache_emojis (cache_guild_channels
          (clearGuildSets c G.id) G.id G.channels) G.id G.emojis) G.id G.members)
          G.id G.roles).guild_roles := by
    refine ⟨?_, ?_, ?_, ?_⟩ <;> (unfold cache_guild; dsimp only; split <;> split <;> rfl)
  refine ⟨⟨?_, ?_, ?_, ?_, ?_, ?_, ?_, ?_⟩, ?_, ?_⟩
  · show lookupKV (clearGuildSets c G.id).guild_channels G.id = some []
    rw [hclear]
    exact lookupKV_insertKV_self ..
  · show lookupKV (clearGuildSets c G.id).guild_emojis G.id = some []
    rw [hclear]
    exact lookupKV_insertKV_self ..
  · show lookupKV (clearGuildSets c G.id).guild_members G.id = some []
    rw [hclear]
    exact lookupKV_insertKV_self ..
  · show lookupKV (clearGuildSets c G.id).guild_roles G.id = some []
    rw [hclear]
    exact lookupKV_insertKV_self ..
  · rw [hclear]
    rfl
  · rw [hclear]
    rfl
  · rw [hclear]
    rfl
  · rw [hclear]
    rfl
  · intro x hx
    have h1 : lookupKV (cache_guild c G).guild_channels G.id =
        some (G.channels.foldl (fun s ch => setInsert s ch.id) []) := by
      rw [htail.1, (cache_roles_keeps G.id G.roles _).1, (cache_members_keeps G.id G.members _).1,
        (cache_emojis_keeps G.id G.emojis _).1]
      refine cache_guild_channels_set G.id G.channels _ [] ?_
      rw [hclear]
      exact lookupKV_insertKV_self ..
    show x ∉ (lookupKV (cache_guild c G).guild_channels G.id).getD []
    rw [h1]
    show x ∉ G.channels.foldl (fun s ch => setInsert s ch.id) []
    rw [mem_foldl_setInsert]
    simp [hx]
  · intro g' hg'
    refine ⟨?_, ?_, ?_, ?_⟩
    · show lookupKV (cache_guild c G).guild_channels g' = lookupKV c.guild_channels g'
      rw [htail.1, (cache_roles_keeps G.id G.roles _).1, (cache_members_keeps G.id G.members _).1,
        (cache_emojis_keeps G.id G.emojis _).1,
        cache_guild_channels_lookup_ne G.id g' hg' G.channels _, hclear]
      exact lookupKV_insertKV_ne _ _ _ _ hg'
    · show lookupKV (cache_guild c G).guild_emojis g' = lookupKV c.guild_emojis g'
      rw [htail.2.1, (cache_roles_keeps G.id G.roles _).2.1,
        (cache_members_keeps G.id G.members _).2.1,
        cache_emojis_lookup_ne G.id g' hg' G.emojis _,
        (cache_guild_channels_keeps G.id G.channels _).1, hclear]
      exact lookupKV_insertKV_ne _ _ _ _ hg'
    · show lookupKV (cache_guild c G).guild_members g' = lookupKV c.guild_members g'
      rw [htail.2.2.1, (cache_roles_keeps G.id G.roles _).2.2,
        cache_members_lookup_ne G.id g' hg' G.members _,
        (cache_emojis_keeps G.id G.emojis _).2.1,
        (cache_guild_channels_keeps G.id G.channels _).2.1, hclear]
      exact lookupKV_insertKV_ne _ _ _ _ hg'
    · show lookupKV (cache_guild c G).guild_roles g' = lookupKV c.guild_roles g'
      rw [htail.2.2.2, cache_roles_lookup_ne G.id g' hg' G.roles _,
        (cache_members_keeps G.id G.members _).2.2,
        (cache_emojis_keeps G.id G.emojis _).2.2,
        (cache_guild_channels_keeps G.id G.channels _).2.2, hclear]
      exact lookupKV_insertKV_ne _ _ _ _ hg'

/-- Witness for C5: rebuilding guild 1 with a snapshot without channel 11
drops 11 from guild 1's channel set, leaves guild 2's set untouched, and
the clearing phase does empty guild 1's set first. -/
theorem cache_guild_full_snapshot_rebuild_witness :
    11 ∉ ((cache_guild cachePre guildSnap).guildChannels 1).getD [] ∧
    (cache_guild cachePre guildSnap).guildChannels 2 = cachePre.guildChannels 2 ∧
    (clearGuildSets cachePre 1).guildChannels 1 = some [] :=
  ⟨(cache_guild_full_snapshot_rebuild cachePre guildSnap).2.1 11 (by decide),
   ((cache_guild_full_snapshot_rebuild cachePre guildSnap).2.2 2 (by decide)).1,
   (cache_guild_full_snapshot_rebuild cachePre guildSnap).1.1⟩

end Twilight

namespace Twilight

/-! ## Claim C6: guild chunking and restore -/

theorem rrGo_length {α : Type} (k : Nat) (l : List α) : ∀ (bs : List (List α)) (i : Nat),
    (rrGo k bs i l).length = bs.length := by
  induction l with
  | nil => intro bs i; rfl
  | cons x xs ih =>
    intro bs i
    unfold rrGo
    rw [ih]
    unfold pushBucket
    exact List.length_set ..

theorem pushBucket_flatten_perm {α : Type} (x : α) :
    ∀ (bs : List (List α)) (j : Nat), j < bs.length →
    (pushBucket bs j x).flatten.Perm (bs.flatten ++ [x]) := by
  intro bs
  induction bs with
  | nil => intro j h; exact absurd h (by simp)
  | cons b rest ih =>
    intro j h
    cases j with
    | zero =>
      show ((b ++ [x]) :: rest).flatten.Perm _
      simp only [List.flatten_cons, List.append_assoc]
      exact (@List.perm_append_comm _ [x] rest.flatten).append_left b
    | succ j =>
      have hj : j < rest.length := by
        simpa using h
      show (b :: pushBucket rest j x).flatten.Perm _
      simp only [List.flatten_cons]
      refine List.Perm.trans ((ih j hj).append_left b) ?_
      rw [List.append_assoc]

theorem rrGo_flatten_perm {α : Type} (k : Nat) (hk : 0 < k) (l : List α) :
    ∀ (bs : List (List α)) (i : Nat), bs.length = k →
    (rrGo k bs i l).flatten.Perm (bs.flatten ++ l) := by
  induction l with
  | nil =>
    intro bs i _
    rw [List.append_nil]
    show bs.flatten.Perm bs.flatten
    exact List.Perm.refl _
  | cons x xs ih =>
    intro bs i hbs
    unfold rrGo
    have hlen : (pushBucket bs (i % k) x).length = k := by
      unfold pushBucket
      rw [List.length_set]
      exact hbs
    have h2 := pushBucket_flatten_perm x bs (i % k) (by rw [hbs]; exact Nat.mod_lt i hk)
    refine List.Perm.trans (ih (pushBucket bs (i % k) x) (i + 1) hlen) ?_
    refine List.Perm.trans (h2.append_right xs) ?_
    rw [List.append_assoc]
    exact List.Perm.refl _

theorem flatten_replicate_nil {α : Type} (k : Nat) :
    (List.replicate k ([] : List α)).flatten = [] := by
  induction k with
  | zero => rfl
  | succ n ih => simp [List.replicate_succ, ih]

theorem roundRobin_length {α : Type} (k : Nat) (l : List α) : (roundRobin k l).length = k := by
  unfold roundRobin
  rw [rrGo_length]
  exact List.length_replicate ..

theorem roundRobin_flatten_perm {α : Type} (k : Nat) (hk : 0 < k) (l : List α) :
    (roundRobin k l).flatten.Perm l := by
  unfold roundRobin
  have h := rrGo_flatten_perm k hk l (List.replicate k []) 0 (List.length_replicate ..)
  rwa [flatten_replicate_nil, List.nil_append] at h

theorem defrostGuildsApply_guilds (gs : List CachedGuild) : ∀ c : Cache,
    (defrostGuildsApply c gs).guilds =
      gs.foldl (fun m g => insertKV m g.id g) c.guilds := by
  induction gs with
  | nil => intro c; rfl
  | cons g rest ih =>
    intro c
    unfold defrostGuildsApply
    rw [List.foldl_cons, List.foldl_cons]
    have h := ih { c with guilds := insertKV c.guilds g.id g }
    unfold defrostGuildsApply at h
    exact h

theorem restoreGuildChunks_guilds (chunks : List (List CachedGuild)) : ∀ c : Cache,
    (restoreGuildChunks c chunks).guilds =
      chunks.flatten.foldl (fun m g => insertKV m g.id g) c.guilds := by
  induction chunks with
  | nil => intro c; rfl
  | cons ch rest ih =>
    intro c
    unfold restoreGuildChunks
    rw [List.foldl_cons]
    have h := ih (defrostGuildsApply c ch)
    unfold restoreGuildChunks at h
    rw [h, defrostGuildsApply_guilds, List.flatten_cons, List.foldl_append]

theorem foldl_insert_lookup_preserved (rest : List CachedGuild) :
    ∀ (m : List (Nat × CachedGuild)) (x : Nat),
    x ∉ rest.map (·.id) →
    lookupKV (rest.foldl (fun m g => insertKV m g.id g) m) x = lookupKV m x := by
  induction rest with
  | nil => intro m x _; rfl
  | cons g rest ih =>
    intro m x hx
    simp only [List.map_cons, List.mem_cons] at hx
    push_neg at hx
    rw [List.foldl_cons, ih _ _ hx.2, lookupKV_insertKV_ne _ _ _ _ hx.1]

theorem foldl_insert_length (gs : List CachedGuild) : ∀ (m : List (Nat × CachedGuild)),
    (∀ g ∈ gs, lookupKV m g.id = none) → (gs.map (·.id)).Nodup →
    (gs.foldl (fun m g => insertKV m g.id g) m).length = m.length + gs.length := by
  induction gs with
  | nil => intro m _ _; rfl
  | cons g rest ih =>
    intro m habs hnd
    simp only [List.map_cons, List.nodup_cons] at hnd
    rw [List.foldl_cons]
    have h1 : (insertKV m g.id g).length = m.length + 1 :=
      length_insertKV_absent m g.id g (habs g (List.mem_cons_self ..))
    have habs2 : ∀ x ∈ rest, lookupKV (insertKV m g.id g) x.id = none := by
      intro x hx
      have hne : x.id ≠ g.id := by
        intro he
        exact hnd.1 (he ▸ List.mem_map_of_mem (·.id) hx)
      rw [lookupKV_insertKV_ne m g.id x.id g hne]
      exact habs x (List.mem_cons_of_mem _ hx)
    rw [ih (insertKV m g.id g) habs2 hnd.2, h1]
    simp only [List.length_cons]
    omega

theorem foldl_insert_lookup (gs : List CachedGuild) :
    ∀ (m : List (Nat × CachedGuild)) (g : CachedGuild),
    g ∈ gs → (gs.map (·.id)).Nodup →
    lookupKV (gs.foldl (fun m g => insertKV m g.id g) m) g.id = some g := by
  induction gs with
  | nil => intro m g h; cases h
  | cons g₀ rest ih =>
    intro m g hg hnd
    simp only [List.map_cons, List.nodup_cons] at hnd
    rw [List.foldl_cons]
    rcases List.mem_cons.mp hg with rfl | hg2
    · rw [foldl_insert_lookup_preserved rest (insertKV m g.id g) g.id hnd.1,
        lookupKV_insertKV_self]
    · exact ih _ g hg2 hnd.2

/-- Counterexample to C6 as stated: freezing a store with 150,000 guild
entries produces 2 chunks, not 6 — the chunk count is the hard-coded
`len / 100_000 + 1` of `prepare_cold_resume`; there is no configurable
25,000-entry chunk size. -/
theorem cold_resume_chunk_count_counterexample :
    (prepare_cold_resume_guilds { guilds := List.replicate 150000 (0, dummyGuild) }).length = 2 ∧
    guildChunkCount 150000 = 2 ∧ (2 : Nat) ≠ 6 := by
  refine ⟨?_, by decide, by decide⟩
  show (roundRobin (guildChunkCount
    (Cache.guilds { guilds := List.replicate 150000 ((0 : Nat), dummyGuild) }).length) _).length = 2
  rw [roundRobin_length]
  show guildChunkCount (List.replicate 150000 ((0 : Nat), dummyGuild)).length = 2
  rw [List.length_replicate]
  decide

/-- C6 (amended): snapshot export of a store with `n` guild entries
produces exactly `n / 100_000 + 1` round-robin chunks — for 150,000
entries that is 2 chunks — and restoring all chunks into an empty store
reproduces the original guild count exactly, with every exported guild
present. -/
theorem cold_resume_guild_chunks (c : Cache) (msz : Nat)
    (hnd : (c.guilds.map (fun p => p.2.id)).Nodup) :
    (prepare_cold_resume_guilds c).length = guildChunkCount c.guilds.length ∧
    (c.guilds.length = 150000 → (prepare_cold_resume_guilds c).length = 2) ∧
    (restoreGuildChunks (emptyCache msz) (prepare_cold_resume_guilds c)).guilds.length =
      c.guilds.length ∧
    ∀ p ∈ c.guilds,
      lookupKV (restoreGuildChunks (emptyCache msz) (prepare_cold_resume_guilds c)).guilds
        p.2.id = some p.2 := by
  have hk : 0 < guildChunkCount c.guilds.length := Nat.succ_pos _
  have hlen1 : (prepare_cold_resume_guilds c).length = guildChunkCount c.guilds.length := by
    unfold prepare_cold_resume_guilds
    exact roundRobin_length ..
  have hperm : (prepare_cold_resume_guilds c).flatten.Perm (c.guilds.map (·.2)) :=
    roundRobin_flatten_perm _ hk _
  have hids : ((prepare_cold_resume_guilds c).flatten.map (·.id)).Perm
      (c.guilds.map (fun p => p.2.id)) := by
    have h := hperm.map (·.id)
    rwa [List.map_map] at h
  have hnd2 : ((prepare_cold_resume_guilds c).flatten.map (·.id)).Nodup :=
    hids.nodup_iff.mpr hnd
  refine ⟨hlen1, ?_, ?_, ?_⟩
  · intro h150
    rw [hlen1, h150]
    decide
  · rw [restoreGuildChunks_guilds]
    rw [foldl_insert_length ((prepare_cold_resume_guilds c).flatten) (emptyCache msz).guilds
      (fun g _ => rfl) hnd2]
    show 0 + (prepare_cold_resume_guilds c).flatten.length = c.guilds.length
    rw [hperm.length_eq, List.length_map, Nat.zero_add]
  · intro p hp
    rw [restoreGuildChunks_guilds]
    refine foldl_insert_lookup _ _ p.2 ?_ hnd2
    exact hperm.mem_iff.mpr (List.mem_map_of_mem (·.2) hp)

/-- Witness for C6 (amended): a two-guild store freezes into one chunk
and restores to the same two guilds. -/
theorem cold_resume_guild_chunks_witness :
    (prepare_cold_resume_guilds
        { guilds := [(1, { dummyGuild with id := 1 }), (2, { dummyGuild with id := 2 })] }).length =
      guildChunkCount 2 ∧
    (restoreGuildChunks (emptyCache 100) (prepare_cold_resume_guilds
        { guilds := [(1, { dummyGuild with id := 1 }),
                     (2, { dummyGuild with id := 2 })] })).guilds.length = 2 := by
  have h := cold_resume_guild_chunks
    { guilds := [(1, { dummyGuild with id := 1 }), (2, { dummyGuild with id := 2 })] }
    100 (by decide)
  exact ⟨h.1, h.2.2.1⟩

end Twilight

namespace Twilight

/-! ## Claim C7: cold-resume restore failure handling -/

/-- Counterexample to C7 as stated: a MISSING chunk key does not abort
with an error value — `defrost_guilds` calls `.unwrap()` on the absent
value and panics (`src/redis.rs` line 191). -/
theorem restore_missing_key_panics_counterexample :
    restore_cold_resume storeMissing (emptyCache 100) rebootOne =
      .panicked (emptyCache 100) "called Option::unwrap on a None value" := by
  rfl

/-- C7 (amended): a malformed (undeserializable) chunk aborts that
resource type's restore with an error value naming the resource type; a
MISSING chunk key instead panics via `unwrap`.  On a reported failure the
calling restore path applies `clear()` to the partial state — but since
`clear()` does not reset every index, data restored by earlier phases
(here the member map) survives, so the process does not necessarily
proceed with an empty cache. -/
theorem restore_failure_reporting :
    (∀ (st : RedisStore) (c : Cache) (d : ColdRebootData),
      d.guild_chunks = 1 → st.guildChunk 0 = .malformed →
      restore_cold_resume st c d = .failed "guilds" c) ∧
    (∀ (st : RedisStore) (c : Cache) (d : ColdRebootData),
      d.guild_chunks = 1 → st.guildChunk 0 = .missing →
      restore_cold_resume st c d =
        .panicked c "called Option::unwrap on a None value") ∧
    (∀ (st : RedisStore) (d : ColdRebootData) (msz : Nat) (r : String) (c : Cache),
      restore_cold_resume st (emptyCache msz) d = .failed r c →
      from_redis_restore st d msz = .ok c.clear) ∧
    ((restore_cold_resume storePartial (emptyCache 100) rebootPartial).resourceOf =
        some "channels" ∧
      (from_redis_restore storePartial rebootPartial 100).isOk = true ∧
      lookupKV ((from_redis_restore storePartial rebootPartial 100).stateOf).members (1, 2) =
        some { user_id := 2, guild_id := 1, nick := none, roles := [],
               user := { id := 2, name := "bob", discriminator := "0002", bot := false } } ∧
      (from_redis_restore storePartial rebootPartial 100).stateOf ≠ emptyCache 100) := by
  refine ⟨?_, ?_, ?_, rfl, rfl, rfl, by decide⟩
  · intro st c d h1 h2
    have hrun : runResource "guilds" (defrost_guilds st) c d.guild_chunks =
        .failed "guilds" c := by
      rw [h1]
      unfold runResource
      rw [show List.range 1 = [0] from rfl]
      unfold runChunks
      unfold defrost_guilds
      rw [h2]
    unfold restore_cold_resume
    rw [hrun]
    rfl
  · intro st c d h1 h2
    have hrun : runResource "guilds" (defrost_guilds st) c d.guild_chunks =
        .panicked c "called Option::unwrap on a None value" := by
      rw [h1]
      unfold runResource
      rw [show List.range 1 = [0] from rfl]
      unfold runChunks
      unfold defrost_guilds
      rw [h2]
    unfold restore_cold_resume
    rw [hrun]
    rfl
  · intro st d msz r c h
    unfold from_redis_restore
    rw [h]

/-- Witness for C7 (amended): a store whose only guild chunk is malformed
makes the restore fail with the name "guilds"; the missing-key variant
panics; the failure path of `from_redis` returns the cleared partial
state. -/
theorem restore_failure_reporting_witness :
    restore_cold_resume { storeMissing with guildChunk := fun _ => .malformed }
        (emptyCache 100) rebootOne = .failed "guilds" (emptyCache 100) ∧
    restore_cold_resume storeMissing (emptyCache 100) rebootOne =
      .panicked (emptyCache 100) "called Option::unwrap on a None value" :=
  ⟨restore_failure_reporting.1 { storeMissing with guildChunk := fun _ => .malformed }
      (emptyCache 100) rebootOne rfl rfl,
   restore_failure_reporting.2.1 storeMissing (emptyCache 100) rebootOne rfl rfl⟩

end Twilight

namespace Twilight

/-! ## Idempotence of the single-entity upsert (contrast for claim C4) -/

theorem insertKV_lookup_self {κ α : Type} [DecidableEq κ] (m : List (κ × α)) (k : κ) (v : α)
    (h : lookupKV m k = some v) : insertKV m k v = m := by
  induction m with
  | nil => simp [lookupKV] at h
  | cons p rest ih =>
    obtain ⟨k₀, w⟩ := p
    by_cases hk : k₀ = k
    · subst hk
      simp only [lookupKV, eq_self_iff_true, if_true, Option.some.injEq] at h
      subst h
      simp [insertKV]
    · simp only [lookupKV, if_neg hk] at h
      simp [insertKV, hk, ih h]

theorem setInsert_of_mem {α : Type} [DecidableEq α] (s : List α) (x : α) (h : x ∈ s) :
    setInsert s x = s := by
  simp [setInsert, h]

theorem entryInsert_of_mem (m : List (Nat × List Nat)) (g x : Nat) (s : List Nat)
    (hl : lookupKV m g = some s) (hx : x ∈ s) : entryInsert m g x = m := by
  unfold entryInsert
  rw [hl]
  show insertKV m g (setInsert s x) = m
  rw [setInsert_of_mem s x hx]
  exact insertKV_lookup_self m g s hl

theorem cache_role_eq_of_present (c : Cache) (g : Nat) (r : Role) (item : GuildItem Role)
    (hl : lookupKV c.roles r.id = some item) (he : item.data = r)
    (hs : entryInsert c.guild_roles g r.id = c.guild_roles) :
    cache_role c g r = c := by
  unfold cache_role
  rw [hs]
  dsimp only
  rw [hl]
  simp [he]

/-- In contrast to `cache_guild` (claim C4), the single-entity upsert is
idempotent: a second `cache_role` with the same arguments is a no-op on
the whole cache state, maps and counters alike. -/
theorem cache_role_idem (c : Cache) (g : Nat) (r : Role) :
    cache_role (cache_role c g r) g r = cache_role c g r := by
  have hset : lookupKV (cache_role c g r).guild_roles g =
      some (setInsert ((lookupKV c.guild_roles g).getD []) r.id) := by
    rw [cache_role_guild_roles]
    exact lookupKV_entryInsert_self ..
  have hdata : ∃ item : GuildItem Role,
      lookupKV (cache_role c g r).roles r.id = some item ∧ item.data = r := by
    unfold cache_role
    dsimp only
    rcases hl : lookupKV c.roles r.id with _ | item
    · exact ⟨⟨r, g⟩, lookupKV_insertKV_self .., rfl⟩
    · by_cases he : item.data = r
      · refine ⟨item, ?_, he⟩
        simpa [he] using hl
      · refine ⟨⟨r, g⟩, ?_, rfl⟩
        simp only [he, if_false]
        simpa [he] using lookupKV_insertKV_self c.roles r.id ⟨r, g⟩
  obtain ⟨item, hitem, he⟩ := hdata
  refine cache_role_eq_of_present _ g r item hitem he ?_
  exact entryInsert_of_mem _ g r.id _ hset (mem_setInsert_self ..)

end Twilight
